import Mathlib

/-!
Verification development for the judgment pipeline of the `autowebgenerate`
repository: the business-type classifier (`backend/app/services/business_classifier.py`),
the brand/content extractor (`backend/app/services/content_extractor.py`) and the
website gap analyzer (`backend/app/services/gap_analyzer.py`).

The Python code is shallowly embedded as total Lean functions.  Python strings are
Lean `String`s; Python ints are `Nat`/`Int`; Python floats are exact rationals `ℚ`
(every float literal in the source — 0.30, 0.01, … — is modelled by the rational it
denotes).  Calls into the `re` regular-expression library and into
`urllib.parse.urljoin` are external library calls from the embedded code's point of
view: their *results* (the list returned by `re.findall`, the optional match of
`re.search`, the resolved URL) are inputs of the embedded functions, and everything
the code does downstream of those calls is transcribed directly.  In each concrete
evaluation below the supplied match lists are the ones Python's `re` produces on the
stated HTML input, which a reader can re-trace by hand against the quoted patterns.
-/

namespace AutoWeb

/-! ## Python string primitives -/

/-- Truthiness of a Python value that is either `None` or a string:
`None` and `""` are falsy, every other string is truthy. -/
def pyTruthy : Option String → Bool
  | none => false
  | some s => !s.data.isEmpty

/-- `needle in hay` on character lists: some suffix of `hay` starts with `needle`. -/
def hasSubList : List Char → List Char → Bool
  | [], needle => needle.isEmpty
  | h :: t, needle => needle.isPrefixOf (h :: t) || hasSubList t needle

/-- Python's substring test `needle in hay`. -/
def strIn (needle hay : String) : Bool := hasSubList hay.data needle.data

/-- Python `str.lower()` (the source only lowercases ASCII text). -/
def pyLower (s : String) : String := ⟨s.data.map Char.toLower⟩

/-- Python `str.upper()` (the source only uppercases ASCII text). -/
def pyUpper (s : String) : String := ⟨s.data.map Char.toUpper⟩

/-- Python whitespace as used by `str.strip()` and the regex class `\s` (ASCII part). -/
def isPyWs (c : Char) : Bool :=
  c == ' ' || c == '\t' || c == '\n' || c == '\r' || c == '\x0b' || c == '\x0c'

/-- Python `str.strip()`: drop leading and trailing whitespace. -/
def pyStrip (s : String) : String :=
  ⟨((s.data.dropWhile isPyWs).reverse.dropWhile isPyWs).reverse⟩

/-! ## Business classifier (`business_classifier.py`) -/

/-- One taxonomy entry's keyword sets, from `CATEGORY_KEYWORDS`. -/
structure Keywords where
  primary : List String
  secondary : List String
deriving Repr, DecidableEq

/-- `CATEGORY_KEYWORDS`: the 12 business categories with their detection keywords,
in declaration (= Python dict insertion) order. -/
def CATEGORY_KEYWORDS : List (String × Keywords) := [
  ("restaurant",
    { primary := ["restaurant", "cafe", "dining", "food", "cuisine", "menu", "chef", "bistro", "eatery"],
      secondary := ["pizza", "italian", "chinese", "indian", "thai", "sushi", "japanese", "mexican", "burger", "barbecue", "bbq", "steakhouse", "seafood", "vegan", "vegetarian"] }),
  ("professional",
    { primary := ["lawyer", "attorney", "legal", "accountant", "accounting", "consultant", "consulting", "financial", "advisor", "cpa", "tax"],
      secondary := ["law firm", "bookkeeping", "audit", "litigation", "contract", "business consulting", "strategy"] }),
  ("home_services",
    { primary := ["plumber", "plumbing", "electrician", "electrical", "hvac", "heating", "cooling", "carpenter", "carpentry", "locksmith", "handyman"],
      secondary := ["repair", "installation", "maintenance", "emergency", "24/7", "licensed", "insured"] }),
  ("health_medical",
    { primary := ["dentist", "dental", "doctor", "physician", "clinic", "medical", "therapy", "therapist", "chiropractor", "physiotherapy"],
      secondary := ["healthcare", "wellness", "treatment", "patient", "diagnosis", "surgery", "orthodontic", "pediatric"] }),
  ("beauty_wellness",
    { primary := ["salon", "spa", "massage", "barber", "nails", "manicure", "pedicure", "beauty", "hair", "hairstylist"],
      secondary := ["facial", "waxing", "makeup", "cosmetic", "skincare", "relaxation", "aromatherapy"] }),
  ("fitness",
    { primary := ["gym", "fitness", "yoga", "pilates", "personal training", "crossfit", "workout", "exercise"],
      secondary := ["weight loss", "muscle", "cardio", "strength", "wellness", "health club", "boxing", "martial arts"] }),
  ("retail",
    { primary := ["shop", "store", "boutique", "retail", "products", "merchandise", "clothing", "apparel", "fashion"],
      secondary := ["ecommerce", "shopping", "buy", "sale", "discount", "online store", "marketplace"] }),
  ("real_estate",
    { primary := ["realtor", "real estate", "property", "homes", "houses", "apartments", "estate agent", "realty"],
      secondary := ["buying", "selling", "rental", "lease", "commercial", "residential", "investment", "listing"] }),
  ("automotive",
    { primary := ["mechanic", "auto repair", "car service", "automotive", "garage", "vehicle", "auto shop"],
      secondary := ["oil change", "brake", "transmission", "engine", "tire", "inspection", "diagnostic", "body shop"] }),
  ("education",
    { primary := ["school", "training", "courses", "tutoring", "education", "learning", "academy", "institute"],
      secondary := ["teaching", "lessons", "class", "workshop", "certification", "online learning", "coaching"] }),
  ("creative",
    { primary := ["photographer", "photography", "designer", "design", "agency", "studio", "creative", "artist"],
      secondary := ["graphic design", "web design", "branding", "marketing", "advertising", "video", "production"] }),
  ("hospitality",
    { primary := ["hotel", "motel", "accommodation", "bnb", "bed and breakfast", "resort", "inn", "lodging"],
      secondary := ["rooms", "booking", "stay", "guest", "vacation", "travel", "amenities", "hospitality"] })]

/-- `CONFIDENCE_INDICATORS`: per-category confidence-indicator keywords. -/
def CONFIDENCE_INDICATORS : List (String × List String) := [
  ("restaurant", ["menu page", "reservation", "delivery", "takeout", "hours", "food photos"]),
  ("professional", ["credentials", "case studies", "consultation", "practice areas", "attorney", "certified"]),
  ("home_services", ["service area", "emergency", "licensed", "insured", "free quote", "24/7"]),
  ("health_medical", ["appointment", "insurance", "patients", "services", "doctors", "treatments"]),
  ("beauty_wellness", ["services", "pricing", "booking", "before/after", "gallery", "testimonials"]),
  ("fitness", ["classes", "schedule", "membership", "trainers", "facilities", "programs"]),
  ("retail", ["products", "cart", "checkout", "shipping", "returns", "catalog"]),
  ("real_estate", ["listings", "properties", "search", "agents", "mls", "sold"]),
  ("automotive", ["services", "appointment", "diagnostics", "warranty", "certified", "repairs"]),
  ("education", ["courses", "enrollment", "tuition", "curriculum", "instructors", "certification"]),
  ("creative", ["portfolio", "work", "clients", "packages", "projects", "gallery"]),
  ("hospitality", ["rooms", "availability", "check-in", "amenities", "location", "rates"])]

/-- `SECONDARY_TAGS`: tag keyword sets for the categories that have them. -/
def SECONDARY_TAGS : List (String × List (String × List String)) := [
  ("restaurant", [
    ("italian", ["italian", "pasta", "pizza", "romano"]),
    ("chinese", ["chinese", "dim sum", "wok", "asian"]),
    ("mexican", ["mexican", "taco", "burrito", "salsa"]),
    ("fast_food", ["fast food", "quick service", "drive-thru"]),
    ("fine_dining", ["fine dining", "upscale", "gourmet", "michelin"]),
    ("casual", ["casual", "family", "friendly", "neighborhood"]),
    ("cafe", ["cafe", "coffee", "bakery", "breakfast"])]),
  ("home_services", [
    ("emergency", ["emergency", "24/7", "24 hour", "urgent"]),
    ("residential", ["residential", "home", "house"]),
    ("commercial", ["commercial", "business", "industrial"])]),
  ("beauty_wellness", [
    ("hair", ["hair", "salon", "barber", "hairstylist"]),
    ("nails", ["nails", "manicure", "pedicure"]),
    ("spa", ["spa", "massage", "facial", "relaxation"])])]

/-- Python `dict.get(k, default)` on an association list. -/
def lookupD {α : Type} (l : List (String × α)) (k : String) (dflt : α) : α :=
  match l.find? (fun p => p.1 == k) with
  | some p => p.2
  | none => dflt

/-- Score and matched-keyword list for one category, as computed by the loop body in
`classify_business`: +10 per primary keyword contained in the search text, +3 per
secondary keyword, and — only when `website_text` is truthy — +5 per confidence
indicator.  `matched` collects the primary matches then the secondary matches, in
table order (indicator matches are not recorded, as in the source). -/
def categoryScoreMatched (searchText : String) (hasWebsiteText : Bool)
    (catName : String) (kw : Keywords) : Nat × List String :=
  let pm := kw.primary.filter (fun k => strIn k searchText)
  let sm := kw.secondary.filter (fun k => strIn k searchText)
  let ind := if hasWebsiteText
    then ((lookupD CONFIDENCE_INDICATORS catName []).filter (fun k => strIn k searchText)).length
    else 0
  (10 * pm.length + 3 * sm.length + 5 * ind, pm ++ sm)

/-- The combined lowercase search text `f"{category} {business_name} {website_text}".lower()`. -/
def searchTextOf (category websiteText businessName : String) : String :=
  pyLower (category ++ " " ++ businessName ++ " " ++ websiteText)

/-- `category_scores` / `matched_keywords_by_category` as one ordered list:
`(name, (score, matched))` for each taxonomy entry, in declaration order. -/
def classifyEntries (category websiteText businessName : String) :
    List (String × Nat × List String) :=
  CATEGORY_KEYWORDS.map (fun p =>
    (p.1, categoryScoreMatched (searchTextOf category websiteText businessName)
      (pyTruthy (some websiteText)) p.1 p.2))

/-- `max(category_scores, key=category_scores.get)` together with that key's score and
matches: Python `max` keeps the first element whose key is maximal, so the fold
replaces the current best only on a strictly greater score. -/
def bestEntry (l : List (String × Nat × List String)) : String × Nat × List String :=
  match l with
  | [] => ("general", 0, [])
  | x :: rest => rest.foldl (fun q p => if q.2.1 < p.2.1 then p else q) x

/-- The winning (maximal) category score for given classifier inputs. -/
def winningScore (category websiteText businessName : String) : Nat :=
  (bestEntry (classifyEntries category websiteText businessName)).2.1

/-- The confidence curve of `classify_business` (the score is a sum of 10/3/5
increments, hence a natural number).  `round(confidence, 2)` in the source is the
identity on every reachable value — each branch below produces an integer multiple
of 1/100 — so it is not modelled separately. -/
def confidenceOf (s : Nat) : ℚ :=
  if 30 ≤ s then min (95/100) (7/10 + ((s - 30 : Nat) : ℚ) * (1/100))
  else if 20 ≤ s then 7/10 + ((s - 20 : Nat) : ℚ) * (2/100)
  else if 10 ≤ s then 5/10 + ((s - 10 : Nat) : ℚ) * (2/100)
  else (s : ℚ) * (5/100)

/-- Secondary tags for the winning category: a tag is appended (once — the inner
loop breaks at the first matching keyword) iff one of its keywords occurs in the
search text.  The source then applies `list(set(...))`, which only reorders this
duplicate-free list (CPython set order is unspecified); the model keeps table order. -/
def tagsFor (searchText : String) (winner : String) : List String :=
  ((lookupD SECONDARY_TAGS winner []).filter
    (fun t => t.2.any (fun k => strIn k searchText))).map (fun t => t.1)

/-- The result record of `classify_business`. -/
structure ClassifyResult where
  primary_type : String
  confidence : ℚ
  secondary_tags : List String
  matched_keywords : List String
  warning : Option String
deriving Repr, DecidableEq

/-- `classify_business(category, website_text, business_name)`.  `category_scores`
is always nonempty (12 fixed categories), so the fallback guard
`not category_scores or max(...) == 0` reduces to "every score is zero".
The embedded function is total: the source never raises. -/
def classifyBusiness (category websiteText businessName : String) : ClassifyResult :=
  let entries := classifyEntries category websiteText businessName
  if entries.all (fun e => e.2.1 == 0) then
    { primary_type := "general"
      confidence := 0
      secondary_tags := []
      matched_keywords := []
      warning := some "Could not classify business type" }
  else
    let best := bestEntry entries
    { primary_type := best.1
      confidence := confidenceOf best.2.1
      secondary_tags := tagsFor (searchTextOf category websiteText businessName) best.1
      matched_keywords := best.2.2.take 5
      warning := none }

/-- The taxonomy: the keys of `CATEGORY_KEYWORDS`, in declaration order. -/
def taxonomyNames : List String := CATEGORY_KEYWORDS.map (fun p => p.1)

/-! ### Classifier lemmas -/

lemma foldl_choice {α : Type} (f : α → α → α) (hf : ∀ q p, f q p = q ∨ f q p = p) :
    ∀ (l : List α) (q : α), l.foldl f q = q ∨ l.foldl f q ∈ l := by
  intro l
  induction l with
  | nil => intro q; exact Or.inl rfl
  | cons p t ih =>
    intro q
    rcases ih (f q p) with h | h
    · rcases hf q p with h2 | h2
      · exact Or.inl (by rw [List.foldl_cons, h, h2])
      · exact Or.inr (by rw [List.foldl_cons, h, h2]; exact List.mem_cons_self _ _)
    · exact Or.inr (List.mem_cons_of_mem _ (by rw [List.foldl_cons]; exact h))

lemma bestEntry_mem (l : List (String × Nat × List String)) (h : l ≠ []) :
    bestEntry l ∈ l := by
  cases l with
  | nil => exact absurd rfl h
  | cons x rest =>
    show rest.foldl (fun q p => if q.2.1 < p.2.1 then p else q) x ∈ x :: rest
    have hc := foldl_choice
      (fun (q p : String × Nat × List String) => if q.2.1 < p.2.1 then p else q)
      (fun q p => by
        by_cases hqp : q.2.1 < p.2.1
        · exact Or.inr (if_pos hqp)
        · exact Or.inl (if_neg hqp)) rest x
    rcases hc with h2 | h2
    · rw [h2]; exact List.mem_cons_self _ _
    · exact List.mem_cons_of_mem _ h2

lemma classifyEntries_ne_nil (category websiteText businessName : String) :
    classifyEntries category websiteText businessName ≠ [] := by
  unfold classifyEntries CATEGORY_KEYWORDS
  simp

lemma bestEntry_fst_mem_taxonomy (category websiteText businessName : String) :
    (bestEntry (classifyEntries category websiteText businessName)).1 ∈ taxonomyNames := by
  have hb := bestEntry_mem _ (classifyEntries_ne_nil category websiteText businessName)
  rw [classifyEntries] at hb
  obtain ⟨a, ha, hea⟩ := List.mem_map.mp hb
  rw [classifyEntries, ← hea]
  exact List.mem_map_of_mem _ ha

lemma winningScore_of_all_zero (category websiteText businessName : String)
    (h : (classifyEntries category websiteText businessName).all (fun e => e.2.1 == 0) = true) :
    winningScore category websiteText businessName = 0 := by
  have hb := bestEntry_mem _ (classifyEntries_ne_nil category websiteText businessName)
  have h2 := List.all_eq_true.mp h _ hb
  unfold winningScore
  simpa using h2

lemma confidenceOf_ge30 (s : Nat) (h : 30 ≤ s) :
    7/10 ≤ confidenceOf s ∧ confidenceOf s ≤ 95/100 := by
  unfold confidenceOf
  rw [if_pos h]
  constructor
  · exact le_min (by norm_num) (le_add_of_nonneg_right (by positivity))
  · exact min_le_left _ _

lemma confidenceOf_20 (s : Nat) (h1 : 20 ≤ s) (h2 : s < 30) :
    7/10 ≤ confidenceOf s ∧ confidenceOf s ≤ 88/100 := by
  unfold confidenceOf
  rw [if_neg (by omega), if_pos h1]
  have hle : ((s - 20 : Nat) : ℚ) ≤ 9 := by exact_mod_cast (by omega : s - 20 ≤ 9)
  have hnn : (0 : ℚ) ≤ ((s - 20 : Nat) : ℚ) := Nat.cast_nonneg _
  constructor
  · exact le_add_of_nonneg_right (by positivity)
  · nlinarith

lemma confidenceOf_10 (s : Nat) (h1 : 10 ≤ s) (h2 : s < 20) :
    5/10 ≤ confidenceOf s ∧ confidenceOf s ≤ 68/100 := by
  unfold confidenceOf
  rw [if_neg (by omega), if_neg (by omega), if_pos h1]
  have hle : ((s - 10 : Nat) : ℚ) ≤ 9 := by exact_mod_cast (by omega : s - 10 ≤ 9)
  have hnn : (0 : ℚ) ≤ ((s - 10 : Nat) : ℚ) := Nat.cast_nonneg _
  constructor
  · exact le_add_of_nonneg_right (by positivity)
  · nlinarith

lemma confidenceOf_lt10 (s : Nat) (h : s < 10) :
    confidenceOf s = (s : ℚ) * (5/100) ∧ 0 ≤ confidenceOf s ∧ confidenceOf s < 1/2 := by
  unfold confidenceOf
  rw [if_neg (by omega), if_neg (by omega), if_neg (by omega)]
  have hle : ((s : Nat) : ℚ) ≤ 9 := by exact_mod_cast (by omega : s ≤ 9)
  have hnn : (0 : ℚ) ≤ (s : ℚ) := Nat.cast_nonneg _
  refine ⟨rfl, by positivity, ?_⟩
  nlinarith

/-! ### C2 and C8 -/

/-- C2: for every category, business name and website text, `classify_business`
returns a confidence in [0,1] and a primary type drawn from the twelve taxonomy
entries or `"general"`, and the confidence is given by the piecewise curve on the
winning score: ≥ 30 maps into [0.70, 0.95] (capped at 0.95), 20–29 into
[0.70, 0.88], 10–19 into [0.50, 0.68], and below 10 linearly
(`score * 0.05`) into [0, 0.5). -/
theorem C2_confidence_curve_and_type (category websiteText businessName : String) :
    (0 ≤ (classifyBusiness category websiteText businessName).confidence ∧
      (classifyBusiness category websiteText businessName).confidence ≤ 1) ∧
    ((classifyBusiness category websiteText businessName).primary_type ∈ taxonomyNames ∨
      (classifyBusiness category websiteText businessName).primary_type = "general") ∧
    (if 30 ≤ winningScore category websiteText businessName then
      7/10 ≤ (classifyBusiness category websiteText businessName).confidence ∧
        (classifyBusiness category websiteText businessName).confidence ≤ 95/100
    else if 20 ≤ winningScore category websiteText businessName then
      7/10 ≤ (classifyBusiness category websiteText businessName).confidence ∧
        (classifyBusiness category websiteText businessName).confidence ≤ 88/100
    else if 10 ≤ winningScore category websiteText businessName then
      5/10 ≤ (classifyBusiness category websiteText businessName).confidence ∧
        (classifyBusiness category websiteText businessName).confidence ≤ 68/100
    else
      (classifyBusiness category websiteText businessName).confidence =
          (winningScore category websiteText businessName : ℚ) * (5/100) ∧
        0 ≤ (classifyBusiness category websiteText businessName).confidence ∧
        (classifyBusiness category websiteText businessName).confidence < 1/2) := by
  by_cases hz :
      (classifyEntries category websiteText businessName).all (fun e => e.2.1 == 0) = true
  · have hr : classifyBusiness category websiteText businessName =
        { primary_type := "general", confidence := 0, secondary_tags := [],
          matched_keywords := [], warning := some "Could not classify business type" } := by
      unfold classifyBusiness
      rw [if_pos hz]
    have hs := winningScore_of_all_zero category websiteText businessName hz
    rw [hr, hs]
    norm_num
  · have hr : classifyBusiness category websiteText businessName =
        { primary_type := (bestEntry (classifyEntries category websiteText businessName)).1
          confidence := confidenceOf (winningScore category websiteText businessName)
          secondary_tags := tagsFor (searchTextOf category websiteText businessName)
            (bestEntry (classifyEntries category websiteText businessName)).1
          matched_keywords :=
            (bestEntry (classifyEntries category websiteText businessName)).2.2.take 5
          warning := none } := by
      unfold classifyBusiness
      rw [if_neg hz]
      rfl
    rw [hr]
    refine ⟨?_, Or.inl (bestEntry_fst_mem_taxonomy category websiteText businessName), ?_⟩
    · rcases Nat.lt_or_ge (winningScore category websiteText businessName) 10 with h | h
      · obtain ⟨-, h0, hhalf⟩ := confidenceOf_lt10 _ h
        exact ⟨h0, by linarith⟩
      rcases Nat.lt_or_ge (winningScore category websiteText businessName) 20 with h2 | h2
      · obtain ⟨hlo, hhi⟩ := confidenceOf_10 _ h h2
        exact ⟨by linarith, by linarith⟩
      rcases Nat.lt_or_ge (winningScore category websiteText businessName) 30 with h3 | h3
      · obtain ⟨hlo, hhi⟩ := confidenceOf_20 _ h2 h3
        exact ⟨by linarith, by linarith⟩
      · obtain ⟨hlo, hhi⟩ := confidenceOf_ge30 _ h3
        exact ⟨by linarith, by linarith⟩
    · rcases Nat.lt_or_ge (winningScore category websiteText businessName) 10 with h | h
      · rw [if_neg (by omega), if_neg (by omega), if_neg (by omega)]
        exact confidenceOf_lt10 _ h
      rcases Nat.lt_or_ge (winningScore category websiteText businessName) 20 with h2 | h2
      · rw [if_neg (by omega), if_neg (by omega), if_pos h]
        exact confidenceOf_10 _ h h2
      rcases Nat.lt_or_ge (winningScore category websiteText businessName) 30 with h3 | h3
      · rw [if_neg (by omega), if_pos h2]
        exact confidenceOf_20 _ h2 h3
      · rw [if_pos h3]
        exact confidenceOf_ge30 _ h3

/-- C2 witness: the theorem evaluated at the concrete input
`category="restaurant", text="", name=""`. -/
theorem C2_confidence_curve_and_type_witness :
    0 ≤ (classifyBusiness "restaurant" "" "").confidence ∧
      (classifyBusiness "restaurant" "" "").confidence ≤ 1 :=
  (C2_confidence_curve_and_type "restaurant" "" "").1

/-- C8: whenever every taxonomy category scores zero, `classify_business` returns
the `"general"` fallback with confidence exactly 0, empty secondary tags and
matched keywords, and the warning flag set.  The embedded function is total, so no
input raises. -/
theorem C8_all_zero_general_fallback (category websiteText businessName : String)
    (h : (classifyEntries category websiteText businessName).all (fun e => e.2.1 == 0) = true) :
    classifyBusiness category websiteText businessName =
      { primary_type := "general", confidence := 0, secondary_tags := [],
        matched_keywords := [], warning := some "Could not classify business type" } := by
  unfold classifyBusiness
  rw [if_pos h]

/-- C8 witness: the all-empty input `category="", name="", text=""` (Scenario D)
makes every category score zero and produces the fallback record. -/
theorem C8_all_zero_general_fallback_witness :
    ((classifyEntries "" "" "").all (fun e => e.2.1 == 0) = true) ∧
      classifyBusiness "" "" "" =
        { primary_type := "general", confidence := 0, secondary_tags := [],
          matched_keywords := [], warning := some "Could not classify business type" } :=
  ⟨by decide, C8_all_zero_general_fallback "" "" "" (by decide)⟩

/-! ## Color extraction (`content_extractor.py`, `extract_colors_from_text`)

The four `re.findall` calls are external library calls; their results are the
inputs of the model:
* `hexMatches` — matches of `#(?:[0-9a-fA-F]{3}|[0-9a-fA-F]{6})\b` (whole match,
  always `#` + 3 or 6 hex digits);
* `cssMatches` — group 1 of
  `(?:background-color|color|border-color|fill|stroke)\s*:\s*([#]?[0-9a-fA-F]{3,6}|rgba?\([^)]+\))`
  (an optional `#` followed by 3–6 hex digits, or an `rgb(...)`/`rgba(...)` form);
* `inlineMatches` — group 1 of
  `style\s*=\s*["'][^"']*(?:background-color|color)\s*:\s*([^;"']+)` (arbitrary text);
* `rgbMatches` — the three captured decimal-digit groups of
  `rgba?\s*\(\s*(\d+)\s*,\s*(\d+)\s*,\s*(\d+)(?:\s*,\s*[\d.]+)?\s*\)`, already
  converted by `int(...)` to numbers.
Everything after the findall calls is transcribed from the source. -/

/-- `pre` is a prefix of `s` (Python `str.startswith`). -/
def pyStartsWith (s pre : String) : Bool := pre.data.isPrefixOf s.data

/-- The 3-digit-to-6-digit hex normalization
`f"#{color[1]}{color[1]}{color[2]}{color[2]}{color[3]}{color[3]}"`,
applied by the source only under `len(color) == 4`. -/
def expand3 (c : String) : String :=
  match c.data with
  | [_, a, b, d] => ⟨['#', a, a, b, b, d, d]⟩
  | _ => c

/-- The common `#`-branch step of the hex/CSS/inline loops:
normalize a 3-digit hex to 6 digits, then uppercase. -/
def normColor (c : String) : String :=
  pyUpper (if c.length == 4 then expand3 c else c)

/-- Uppercase hex digit for a value < 16 (`0`–`9`, `A`–`F`). -/
def hexDigit (n : Nat) : Char :=
  if n < 10 then Char.ofNat (48 + n) else Char.ofNat (55 + n)

def toHexUpperAux (n : Nat) (acc : List Char) : List Char :=
  if h : n = 0 then acc else toHexUpperAux (n / 16) (hexDigit (n % 16) :: acc)
termination_by n
decreasing_by exact Nat.div_lt_self (Nat.pos_of_ne_zero h) (by norm_num)

/-- Uppercase hexadecimal rendering of a natural number. -/
def toHexUpper (n : Nat) : String :=
  if n = 0 then "0" else ⟨toHexUpperAux n []⟩

/-- Python `f"{n:02X}"`: uppercase hex, left-padded with `0` to at least 2 digits. -/
def hex2 (n : Nat) : String :=
  if (toHexUpper n).length < 2 then "0" ++ toHexUpper n else toHexUpper n

/-- Value of a decimal digit run (Python `int(...)` on a `\d+` match). -/
def digitsToNat (l : List Char) : Nat :=
  l.foldl (fun a c => 10 * a + (c.toNat - 48)) 0

lemma length_dropWhile_le (p : Char → Bool) :
    ∀ l : List Char, (l.dropWhile p).length ≤ l.length := by
  intro l
  induction l with
  | nil => simp [List.dropWhile]
  | cons c t ih =>
    rw [List.dropWhile]
    split
    · exact le_trans ih (Nat.le_succ _)
    · simp

/-- `re.findall(r'\d+', ·)` composed with `int`: the values of the maximal
decimal-digit runs, left to right. -/
def digitRuns : List Char → List Nat
  | [] => []
  | c :: t =>
    if c.isDigit then
      digitsToNat ((c :: t).takeWhile Char.isDigit) :: digitRuns (t.dropWhile Char.isDigit)
    else
      digitRuns t
termination_by l => l.length
decreasing_by
  · have := length_dropWhile_le Char.isDigit t
    simp only [List.length_cons]
    omega
  · simp

/-- Hex value of one character, as `int(·, 16)` reads plain hex digits. -/
def hexVal (c : Char) : Option Nat :=
  if '0' ≤ c ∧ c ≤ '9' then some (c.toNat - 48)
  else if 'a' ≤ c ∧ c ≤ 'f' then some (c.toNat - 87)
  else if 'A' ≤ c ∧ c ≤ 'F' then some (c.toNat - 55)
  else none

def hexPair (a b : Char) : Option Nat :=
  match hexVal a, hexVal b with
  | some x, some y => some (16 * x + y)
  | _, _ => none

/-- `int(color[1:3], 16), int(color[3:5], 16), int(color[5:7], 16)` on a 7-character
string (the first character is ignored, as in the slices).  `none` models the
`except: pass` branch for non-hex characters; Python's `int(·, 16)` also tolerates
surrounding whitespace and signs, which no color reaching this point contains. -/
def parse6 (s : String) : Option (Nat × Nat × Nat) :=
  match s.data with
  | [_, a, b, c, d, e, f] =>
    match hexPair a b, hexPair c d, hexPair e f with
    | some r, some g, some bl => some (r, g, bl)
    | _, _, _ => none
  | _ => none

/-- The explicit skip list in the filter loop. -/
def bannedColors : List String := ["#FFFFFF", "#000000", "#FFF", "#000", "#FEFEFE", "#010101"]

/-- The near-white/near-black test: on a 7-character color, skip when all three
components are > 250 or all are < 5; parse failures fall through (`except: pass`). -/
def nearFilter (c : String) : Bool :=
  if c.length == 7 then
    match parse6 c with
    | some (r, g, bl) =>
      (decide (250 < r) && decide (250 < g) && decide (250 < bl)) ||
        (decide (r < 5) && decide (g < 5) && decide (bl < 5))
    | none => false
  else false

/-- Iteration over `Counter(colors)` keys: the distinct colors in first-occurrence
order. -/
def dedupFirst (l : List String) : List String :=
  l.foldl (fun acc c => if acc.contains c then acc else acc ++ [c]) []

/-- One CSS-property capture, as processed by the second loop: a `#`-leading value
is normalized and uppercased; an `rgb`/`rgba` value contributes a hex color built
from its first three digit runs (if it has at least three); anything else is
dropped. -/
def processCssColor (c : String) : List String :=
  if pyStartsWith c "#" then [normColor c]
  else if pyStartsWith c "rgb" then
    match digitRuns c.data with
    | r :: g :: b :: _ => ["#" ++ hex2 r ++ hex2 g ++ hex2 b]
    | _ => []
  else []

/-- One inline-style capture, as processed by the third loop: strip, then keep only
`#`-leading values, normalized and uppercased. -/
def processInlineColor (c0 : String) : List String :=
  let c := pyStrip c0
  if pyStartsWith c "#" then [normColor c] else []

/-- `extract_colors_from_text` downstream of the findall calls: build the `colors`
list from the four loops in source order, then iterate over the `Counter`'s keys
(first-occurrence order of distinct colors), filter out the explicit skip list and
the near-white/near-black colors, and return the first 8 survivors.
(`Counter(filtered_colors).most_common(8)` sees each distinct color exactly once —
the filter loop iterates over `Counter` *keys* — so with all counts equal to 1 the
stable `most_common` returns the first 8 in first-occurrence order.) -/
def allColors (hexMatches cssMatches inlineMatches : List String)
    (rgbMatches : List (Nat × Nat × Nat)) : List String :=
  hexMatches.map normColor
  ++ cssMatches.flatMap processCssColor
  ++ inlineMatches.flatMap processInlineColor
  ++ rgbMatches.map (fun t => "#" ++ hex2 t.1 ++ hex2 t.2.1 ++ hex2 t.2.2)

/-- The filter-and-truncate tail of `extract_colors_from_text`. -/
def extractColorsModel (hexMatches cssMatches inlineMatches : List String)
    (rgbMatches : List (Nat × Nat × Nat)) : List String :=
  ((dedupFirst (allColors hexMatches cssMatches inlineMatches rgbMatches)).filter
    (fun c => !(bannedColors.contains c) && !(nearFilter c))).take 8

/-- Modelled from the spec: a well-formed 6-digit hex code of the form `#RRGGBB`. -/
def isSixDigitHex (s : String) : Bool :=
  match s.data with
  | '#' :: rest => rest.length == 6 && rest.all (fun c => (hexVal c).isSome)
  | _ => false

/-! ### Color extraction lemmas -/

lemma mem_foldl_dedup (l : List String) :
    ∀ (acc : List String) (x : String),
      x ∈ l.foldl (fun acc c => if acc.contains c then acc else acc ++ [c]) acc →
      x ∈ acc ∨ x ∈ l := by
  induction l with
  | nil => intro acc x h; exact Or.inl h
  | cons c t ih =>
    intro acc x h
    rw [List.foldl_cons] at h
    rcases ih _ x h with h2 | h2
    · by_cases hc : acc.contains c = true
      · rw [if_pos hc] at h2
        exact Or.inl h2
      · rw [if_neg hc] at h2
        rcases List.mem_append.mp h2 with h3 | h3
        · exact Or.inl h3
        · have hx : x = c := List.mem_singleton.mp h3
          subst hx
          exact Or.inr (List.mem_cons_self _ _)
    · exact Or.inr (List.mem_cons_of_mem _ h2)

lemma mem_dedupFirst {x : String} {l : List String} (h : x ∈ dedupFirst l) : x ∈ l := by
  rcases mem_foldl_dedup l [] x h with h2 | h2
  · exact absurd h2 (List.not_mem_nil x)
  · exact h2

lemma pyStartsWith_hash_cons (t : List Char) : pyStartsWith ⟨'#' :: t⟩ "#" = true := by
  show List.isPrefixOf "#".data ('#' :: t) = true
  have h1 : "#".data = ['#'] := rfl
  rw [h1]
  simp [List.isPrefixOf]

lemma pyStartsWith_hash_elim {s : String} (h : pyStartsWith s "#" = true) :
    ∃ t, s.data = '#' :: t := by
  cases s with
  | mk d =>
    cases d with
    | nil => exact absurd h (by decide)
    | cons a t =>
      have h2 : List.isPrefixOf ['#'] (a :: t) = true := h
      simp [List.isPrefixOf] at h2
      exact ⟨t, by rw [h2]⟩

lemma pyStartsWith_hash_append (s : String) : pyStartsWith ("#" ++ s) "#" = true := by
  cases s with
  | mk d => exact pyStartsWith_hash_cons d

lemma normColor_hash {c : String} (h : pyStartsWith c "#" = true) :
    pyStartsWith (normColor c) "#" = true := by
  obtain ⟨t, ht⟩ := pyStartsWith_hash_elim h
  cases c with
  | mk d =>
    have ht' : d = '#' :: t := ht
    subst ht'
    unfold normColor
    by_cases h4 : (String.mk ('#' :: t)).length == 4
    · rw [if_pos h4]
      have hlen : t.length = 3 := by
        have h5 : ('#' :: t).length = 4 := by simpa [String.length] using h4
        simpa using h5
      rcases t with _ | ⟨a, _ | ⟨b, _ | ⟨e, _ | ⟨f, t'⟩⟩⟩⟩ <;> simp at hlen
      show pyStartsWith (pyUpper (expand3 ⟨['#', a, b, e]⟩)) "#" = true
      have hexp : expand3 ⟨['#', a, b, e]⟩ = ⟨['#', a, a, b, b, e, e]⟩ := rfl
      rw [hexp]
      have hup : pyUpper ⟨['#', a, a, b, b, e, e]⟩ =
          ⟨'#' :: [a, a, b, b, e, e].map Char.toUpper⟩ := by
        show (⟨('#' :: [a, a, b, b, e, e]).map Char.toUpper⟩ : String) = _
        have hch : Char.toUpper '#' = '#' := rfl
        simp [List.map, hch]
      rw [hup]
      exact pyStartsWith_hash_cons _
    · rw [if_neg h4]
      have hup : pyUpper ⟨'#' :: t⟩ = ⟨'#' :: t.map Char.toUpper⟩ := by
        show (⟨('#' :: t).map Char.toUpper⟩ : String) = _
        have hch : Char.toUpper '#' = '#' := rfl
        simp [List.map, hch]
      rw [hup]
      exact pyStartsWith_hash_cons _

lemma mem_processCssColor_hash {x c : String} (h : x ∈ processCssColor c) :
    pyStartsWith x "#" = true := by
  unfold processCssColor at h
  by_cases h1 : pyStartsWith c "#" = true
  · rw [if_pos h1] at h
    have hx : x = normColor c := List.mem_singleton.mp h
    subst hx
    exact normColor_hash h1
  · rw [if_neg h1] at h
    by_cases h2 : pyStartsWith c "rgb" = true
    · rw [if_pos h2] at h
      rcases hd : digitRuns c.data with _ | ⟨r, _ | ⟨g, _ | ⟨b, rest⟩⟩⟩ <;> rw [hd] at h <;>
        first
        | exact absurd h (List.not_mem_nil x)
        | · have hx : x = "#" ++ hex2 r ++ hex2 g ++ hex2 b := List.mem_singleton.mp h
            subst hx
            rw [String.append_assoc, String.append_assoc]
            exact pyStartsWith_hash_append _
    · rw [if_neg h2] at h
      exact absurd h (List.not_mem_nil x)

lemma mem_processInlineColor_hash {x c : String} (h : x ∈ processInlineColor c) :
    pyStartsWith x "#" = true := by
  unfold processInlineColor at h
  by_cases h1 : pyStartsWith (pyStrip c) "#" = true
  · rw [if_pos h1] at h
    have hx : x = normColor (pyStrip c) := List.mem_singleton.mp h
    subst hx
    exact normColor_hash h1
  · rw [if_neg h1] at h
    exact absurd h (List.not_mem_nil x)

lemma mem_allColors_hash {x : String} {hexMatches cssMatches inlineMatches : List String}
    {rgbMatches : List (Nat × Nat × Nat)}
    (hhex : ∀ c ∈ hexMatches, pyStartsWith c "#" = true)
    (h : x ∈ allColors hexMatches cssMatches inlineMatches rgbMatches) :
    pyStartsWith x "#" = true := by
  unfold allColors at h
  rcases List.mem_append.mp h with h1 | h1
  rotate_left
  · rcases List.mem_map.mp h1 with ⟨t, -, ht⟩
    subst ht
    rw [String.append_assoc, String.append_assoc]
    exact pyStartsWith_hash_append _
  rcases List.mem_append.mp h1 with h2 | h2
  rotate_left
  · rcases List.mem_flatMap.mp h2 with ⟨c, -, hc⟩
    exact mem_processInlineColor_hash hc
  rcases List.mem_append.mp h2 with h3 | h3
  · rcases List.mem_map.mp h3 with ⟨c, hc, hnc⟩
    subst hnc
    exact normColor_hash (hhex c hc)
  · rcases List.mem_flatMap.mp h3 with ⟨c, -, hc⟩
    exact mem_processCssColor_hash hc

lemma parse6_length {col : String} {r g b : Nat} (hp : parse6 col = some (r, g, b)) :
    col.length = 7 := by
  cases col with
  | mk d =>
    rcases d with _ | ⟨c1, _ | ⟨c2, _ | ⟨c3, _ | ⟨c4, _ | ⟨c5, _ | ⟨c6, _ | ⟨c7, _ | ⟨c8, t⟩⟩⟩⟩⟩⟩⟩⟩ <;>
      first
      | rfl
      | exact absurd hp (by simp [parse6])

lemma nearFilter_false_spec {col : String} {r g b : Nat}
    (hp : parse6 col = some (r, g, b)) (hn : nearFilter col = false) :
    ¬((250 < r ∧ 250 < g ∧ 250 < b) ∨ (r < 5 ∧ g < 5 ∧ b < 5)) := by
  intro hcontra
  have hlen : (col.length == 7) = true := by
    rw [parse6_length hp]
    decide
  unfold nearFilter at hn
  rw [if_pos hlen, hp] at hn
  rcases hcontra with ⟨h1, h2, h3⟩ | ⟨h1, h2, h3⟩ <;> simp [h1, h2, h3] at hn

/-! ### C3 -/

/-- C3 counterexample: on the HTML fragment `"color:#abcd;"` the hex-color pattern
`#(?:[0-9a-fA-F]{3}|[0-9a-fA-F]{6})\b` finds nothing (4 hex digits, and no word
boundary after 3), while the CSS-property pattern captures `"#abcd"`; the
4-hex-digit capture has string length 5, so the 3-digit normalization (guarded by
`len == 4`) does not fire, and the returned list is `["#ABCD"]` — not a well-formed
6-digit `#RRGGBB` code. -/
theorem C3_counterexample :
    extractColorsModel [] ["#abcd"] [] [] = ["#ABCD"] ∧ isSixDigitHex "#ABCD" = false := by
  decide

/-- C3 (amended): the color list has length at most 8, never contains the explicitly
banned values (`#FFFFFF`, `#000000`, `#FFF`, `#000`, `#FEFEFE`, `#010101`), never
contains a 7-character color whose RGB components are all > 250 or all < 5, and —
given that the hex-pattern matches start with `#`, which the regex guarantees —
every returned value starts with `#`.  Returned values need not be well-formed
6-digit `#RRGGBB` codes (see the counterexample). -/
theorem C3_color_list_invariants (hexMatches cssMatches inlineMatches : List String)
    (rgbMatches : List (Nat × Nat × Nat))
    (hhex : ∀ c ∈ hexMatches, pyStartsWith c "#" = true) :
    (extractColorsModel hexMatches cssMatches inlineMatches rgbMatches).length ≤ 8 ∧
    ∀ col ∈ extractColorsModel hexMatches cssMatches inlineMatches rgbMatches,
      col ∉ bannedColors ∧ pyStartsWith col "#" = true ∧
      ∀ r g b, parse6 col = some (r, g, b) →
        ¬((250 < r ∧ 250 < g ∧ 250 < b) ∨ (r < 5 ∧ g < 5 ∧ b < 5)) := by
  constructor
  · unfold extractColorsModel
    apply List.length_take_le
  · intro col hcol
    unfold extractColorsModel at hcol
    have h1 := List.take_subset _ _ hcol
    obtain ⟨hdedup, hpred⟩ := List.mem_filter.mp h1
    obtain ⟨hban, hnear⟩ := Bool.and_eq_true_iff.mp hpred
    refine ⟨?_, ?_, ?_⟩
    · intro hmem
      have : bannedColors.contains col = true := List.elem_eq_true_of_mem hmem
      rw [this] at hban
      exact absurd hban (by decide)
    · exact mem_allColors_hash hhex (mem_dedupFirst hdedup)
    · intro r g b hp
      exact nearFilter_false_spec hp (by simpa using hnear)

/-- C3 witness: a single hex match `"#1a2b3c"` (from HTML containing `#1a2b3c`)
yields the color `"#1A2B3C"`, which satisfies all the invariants. -/
theorem C3_color_list_invariants_witness :
    ("#1A2B3C" ∈ extractColorsModel ["#1a2b3c"] [] [] []) ∧
    ("#1A2B3C" ∉ bannedColors ∧ pyStartsWith "#1A2B3C" "#" = true ∧
      ∀ r g b, parse6 "#1A2B3C" = some (r, g, b) →
        ¬((250 < r ∧ 250 < g ∧ 250 < b) ∨ (r < 5 ∧ g < 5 ∧ b < 5))) :=
  ⟨by decide,
    (C3_color_list_invariants ["#1a2b3c"] [] [] [] (by decide)).2 "#1A2B3C" (by decide)⟩

/-! ## Contact extraction (`content_extractor.py`, `extract_contact_info`)

The three phone patterns, in source order:
1. `\+?\d{1,4}[-.\s]?\(?\d{1,4}\)?[-.\s]?\d{1,4}[-.\s]?\d{1,9}`
2. `\d{3}[-.\s]?\d{3}[-.\s]?\d{4}` (US format)
3. `\d{5}[\s]?\d{6}` (UK format)
`phones1`/`phones2`/`phones3` are the `re.findall` results for the three patterns
(none of which contains a capture group, so `findall` returns whole — hence
nonempty — matches), and `emailMatches` the result for the email pattern
`\b[A-Za-z0-9._%+-]+@[A-Za-z0-9.-]+\.[A-Z|a-z]{2,}\b`. -/

/-- The contact record; `address` is declared but never assigned by the source. -/
structure Contact where
  phone : Option String
  email : Option String
  address : Option String
deriving Repr, DecidableEq

/-- The spam-marker substrings used to discard placeholder emails. -/
def spamMarkers : List String := ["noreply", "example", "test", "spam"]

/-- The pattern loop of `extract_contact_info`: starting from the known business
phone, for each pattern in order, if it found matches and the current phone is
falsy (`None` or `""`), take the first match and stop; a pattern whose matches are
ignored because the phone is already truthy does not stop the loop. -/
def phoneLoop : Option String → List (List String) → Option String
  | ph, [] => ph
  | ph, ms :: rest =>
    match ms with
    | [] => phoneLoop ph rest
    | x :: _ => if pyTruthy ph then phoneLoop ph rest else some x

/-- `extract_contact_info` downstream of the findall calls.  The email branch keeps
the first match that contains none of the spam markers (lower-cased test). -/
def extractContactInfo (phones1 phones2 phones3 emailMatches : List String)
    (businessPhone : Option String) : Contact :=
  { phone := phoneLoop businessPhone [phones1, phones2, phones3]
    email :=
      match emailMatches.filter
        (fun e => !(spamMarkers.any (fun sp => strIn sp (pyLower e)))) with
      | [] => none
      | x :: _ => some x
    address := none }

/-- Modelled from the spec: "apply an ordered list of phone-number patterns (first
match wins)" — the first match of the earliest pattern that matched at all. -/
def firstPatternMatch : List (List String) → Option String
  | [] => none
  | [] :: rest => firstPatternMatch rest
  | (x :: _) :: _ => some x

/-! ### C6 -/

/-- C6 counterexample: on HTML `"call 123-456-7890"` with known business phone
`"999"`, patterns 1 and 2 both find `"123-456-7890"` (pattern 3 finds nothing), so
pattern extraction finds a phone — but the result keeps the known phone `"999"`:
the known phone takes precedence, it is not a mere fallback. -/
theorem C6_counterexample :
    firstPatternMatch [["123-456-7890"], ["123-456-7890"], []] = some "123-456-7890" ∧
    (extractContactInfo ["123-456-7890"] ["123-456-7890"] [] [] (some "999")).phone =
      some "999" ∧
    (extractContactInfo ["123-456-7890"] ["123-456-7890"] [] [] (some "999")).phone ≠
      some "123-456-7890" := by
  decide

/-- C6 (amended): the known business phone, when truthy, is returned unchanged and
pattern extraction cannot override it; only when it is `None` or empty does the
ordered pattern list apply, the first match of the earliest matching pattern
winning (falling back to the business-phone value when no pattern matches). -/
theorem C6_phone_precedence (phones1 phones2 phones3 emailMatches : List String)
    (businessPhone : Option String) :
    (pyTruthy businessPhone = true →
      (extractContactInfo phones1 phones2 phones3 emailMatches businessPhone).phone =
        businessPhone) ∧
    (pyTruthy businessPhone = false →
      (extractContactInfo phones1 phones2 phones3 emailMatches businessPhone).phone =
        match firstPatternMatch [phones1, phones2, phones3] with
        | some x => some x
        | none => businessPhone) := by
  constructor
  · intro ht
    show phoneLoop businessPhone [phones1, phones2, phones3] = businessPhone
    cases phones1 <;> cases phones2 <;> cases phones3 <;>
      simp [phoneLoop, ht]
  · intro hf
    show phoneLoop businessPhone [phones1, phones2, phones3] = _
    cases phones1 <;> cases phones2 <;> cases phones3 <;>
      simp [phoneLoop, firstPatternMatch, hf]

/-- C6 witness: with no known phone, the first pattern's first match wins. -/
theorem C6_phone_precedence_witness :
    (extractContactInfo ["123-456-7890"] [] [] [] none).phone = some "123-456-7890" := by
  have h := (C6_phone_precedence ["123-456-7890"] [] [] [] none).2 rfl
  simpa using h

/-! ## Image extraction (`content_extractor.py`, `extract_images`)

`imgMatches` holds the `(src, alt)` pairs found by
`<img[^>]+src=["']([^"']+)["'](?:[^>]+alt=["']([^"']*)["'])?[^>]*>` — `findall`
yields `''` for an absent `alt` group, and `alt or ""` in the source keeps the
string unchanged.  `urljoin` (from `urllib.parse`) is an external library call,
passed in as the function `uj`. -/

structure ImageRec where
  url : String
  alt : String
  type : String
deriving Repr, DecidableEq

/-- URL fragments that make an image be skipped as a tracking pixel / icon. -/
def skipMarkers : List String := ["icon", "pixel", "track", "1x1", "spacer"]

/-- The logo/hero/content/general tag from keyword heuristics on `src + alt`. -/
def imageType (src alt : String) : String :=
  if ["logo", "brand"].any (fun w => strIn w (pyLower (src ++ alt))) then "logo"
  else if ["hero", "banner", "header"].any (fun w => strIn w (pyLower (src ++ alt))) then "hero"
  else if ["product", "service", "portfolio"].any (fun w => strIn w (pyLower (src ++ alt))) then
    "content"
  else "general"

/-- `extract_images` downstream of the findall call: truncate to `limit`, skip
sources containing a skip marker, resolve each kept source against the base URL
and tag it.  There is no de-duplication in the source. -/
def extractImages (imgMatches : List (String × String)) (baseUrl : String)
    (uj : String → String → String) (limit : Nat) : List ImageRec :=
  ((imgMatches.take limit).filter
    (fun p => !(skipMarkers.any (fun w => strIn w (pyLower p.1))))).map
    (fun p => { url := uj baseUrl p.1, alt := p.2, type := imageType p.1 p.2 })

/-! ### C7 -/

/-- C7 counterexample: two identical `<img src="a.jpg">` tags yield two entries
with the same resolved URL — the images list is not de-duplicated by URL.
(Python's `urljoin` maps equal inputs to equal outputs; the concrete resolver
`b ++ s` used here exhibits the same duplication.) -/
theorem C7_counterexample :
    (extractImages [("a.jpg", "x"), ("a.jpg", "y")] "http://ex.com/"
        (fun b s => b ++ s) 15).map (fun e => e.url) =
      ["http://ex.com/a.jpg", "http://ex.com/a.jpg"] ∧
    ¬ ((extractImages [("a.jpg", "x"), ("a.jpg", "y")] "http://ex.com/"
        (fun b s => b ++ s) 15).map (fun e => e.url)).Nodup := by
  decide

/-- C7 (amended): with the limit 15 used by `extract_business_content`, the images
list has at most 15 entries, and every entry originates from one of the first 15
`(src, alt)` matches whose source URL contains no tracking-pixel/icon marker, with
its URL resolved from that source.  Entries are *not* de-duplicated: the same
resolved URL may appear multiple times (see the counterexample). -/
theorem C7_images_cap_and_skip (imgMatches : List (String × String)) (baseUrl : String)
    (uj : String → String → String) :
    (extractImages imgMatches baseUrl uj 15).length ≤ 15 ∧
    ∀ e ∈ extractImages imgMatches baseUrl uj 15,
      ∃ p ∈ imgMatches.take 15,
        e.url = uj baseUrl p.1 ∧ e.alt = p.2 ∧
        (skipMarkers.any (fun w => strIn w (pyLower p.1))) = false := by
  constructor
  · calc (extractImages imgMatches baseUrl uj 15).length
        = ((imgMatches.take 15).filter
            (fun p => !(skipMarkers.any (fun w => strIn w (pyLower p.1))))).length := by
          simp [extractImages]
      _ ≤ (imgMatches.take 15).length := List.length_filter_le _ _
      _ ≤ 15 := List.length_take_le _ _
  · intro e he
    unfold extractImages at he
    rcases List.mem_map.mp he with ⟨p, hp, hep⟩
    obtain ⟨hmem, hpred⟩ := List.mem_filter.mp hp
    refine ⟨p, hmem, ?_, ?_, ?_⟩
    · rw [← hep]
    · rw [← hep]
    · simpa using hpred

/-- C7 witness: a single non-skipped logo image is kept, capped and tagged. -/
theorem C7_images_cap_and_skip_witness :
    ∃ p ∈ ([("logo.png", "x")] : List (String × String)).take 15,
      ({ url := "http://x/logo.png", alt := "x", type := "logo" } : ImageRec).url =
        (fun (b s : String) => b ++ s) "http://x/" p.1 ∧
      ({ url := "http://x/logo.png", alt := "x", type := "logo" } : ImageRec).alt = p.2 ∧
      (skipMarkers.any (fun w => strIn w (pyLower p.1))) = false :=
  (C7_images_cap_and_skip [("logo.png", "x")] "http://x/" (fun b s => b ++ s)).2
    { url := "http://x/logo.png", alt := "x", type := "logo" } (by decide)

/-! ## Text and logo extraction, and `extract_business_content` -/

/-- Python slice `s[:n]` (by characters). -/
def pyTake (s : String) (n : Nat) : String := ⟨s.data.take n⟩

/-- Scan to the first `'>'`, returning the remainder after it. -/
def afterGt : List Char → Option (List Char)
  | [] => none
  | c :: r => if c == '>' then some r else afterGt r

/-- Given the characters after a `'<'`, the remainder after the matching `'>'` of a
`<[^>]+>` match, or `none` if the regex cannot match here (`[^>]+` needs at least
one non-`'>'` character before the `'>'`; `[^>]` cannot cross a `'>'`, so the
greedy run always ends at the first `'>'`). -/
def tagRest (l : List Char) : Option (List Char) :=
  match l with
  | [] => none
  | c :: rest => if c == '>' then none else afterGt rest

lemma afterGt_length : ∀ {l r : List Char}, afterGt l = some r → r.length < l.length := by
  intro l
  induction l with
  | nil => intro r h; exact absurd h (by simp [afterGt])
  | cons c rest ih =>
    intro r h
    rw [afterGt] at h
    by_cases hc : c == '>'
    · rw [if_pos hc] at h
      have : rest = r := by simpa using h
      subst this
      simp
    · rw [if_neg hc] at h
      exact Nat.lt_trans (ih h) (by simp)

lemma tagRest_length {l r : List Char} (h : tagRest l = some r) : r.length < l.length := by
  match l with
  | [] => exact absurd h (by simp [tagRest])
  | c :: rest =>
    rw [tagRest] at h
    by_cases hc : c == '>'
    · rw [if_pos hc] at h
      exact absurd h (by simp)
    · rw [if_neg hc] at h
      exact Nat.lt_trans (afterGt_length h) (by simp)

/-- `re.sub(r'<[^>]+>', ' ', ·)`: replace each leftmost tag match by a space. -/
def stripTagsAux : List Char → List Char
  | [] => []
  | c :: rest =>
    if c == '<' then
      match h : tagRest rest with
      | some r => ' ' :: stripTagsAux r
      | none => c :: stripTagsAux rest
    else c :: stripTagsAux rest
termination_by l => l.length
decreasing_by
  · have := tagRest_length h
    simp only [List.length_cons]
    omega
  · simp
  · simp

def stripTags (s : String) : String := ⟨stripTagsAux s.data⟩

/-- `re.sub(r'\s+', ' ', ·)`: collapse each maximal whitespace run to one space. -/
def collapseWsAux : List Char → List Char
  | [] => []
  | c :: rest =>
    if isPyWs c then ' ' :: collapseWsAux (rest.dropWhile isPyWs)
    else c :: collapseWsAux rest
termination_by l => l.length
decreasing_by
  · simp only [List.length_cons]
    exact Nat.lt_succ_of_le (length_dropWhile_le _ _)
  · simp

def collapseWs (s : String) : String := ⟨collapseWsAux s.data⟩

/-- The section post-processing
`re.sub(r'\s+', ' ', re.sub(r'<[^>]+>', ' ', group)).strip()[:500]` applied to an
optional captured group (about/services); an absent match leaves `""`. -/
def processSection : Option String → String
  | none => ""
  | some s => pyTake (pyStrip (collapseWs (stripTags s))) 500

/-- The text-content record of `extract_text_content`; the `contact` key is
created empty and never filled. -/
structure TextContent where
  full_text : String
  about : String
  services : String
  contact : String
deriving Repr, DecidableEq

/-- `extract_text_content` downstream of the regex calls.  `cleanedText` is the
`text` variable of the source: the HTML with script/style blocks removed, tags
replaced by spaces, and whitespace collapsed and stripped (on empty HTML it is
`""`).  `aboutCap`/`servicesCap` are group 1 of the about/services section
searches. -/
def extractTextContent (cleanedText : String) (aboutCap servicesCap : Option String) :
    TextContent :=
  { full_text := pyTake cleanedText 5000
    about := processSection aboutCap
    services := processSection servicesCap
    contact := "" }

/-- `extract_logo_urls` downstream of its five pattern findalls (`logoMatches` is
the list of the five match lists, in pattern order): resolve each match against the
base URL and append it unless already present. -/
def extractLogoUrls (logoMatches : List (List String)) (baseUrl : String)
    (uj : String → String → String) : List String :=
  logoMatches.foldl (fun acc ms =>
    ms.foldl (fun acc m =>
      if acc.contains (uj baseUrl m) then acc else acc ++ [uj baseUrl m]) acc) []

/-- The metadata record of `extract_business_content` (all five derived flags). -/
structure ExtractMetadata where
  total_colors_found : Nat
  total_images_found : Nat
  has_logo : Bool
  has_about_section : Bool
  has_services_section : Bool
  has_contact_info : Bool
deriving Repr, DecidableEq

structure ExtractionResult where
  colors : List String
  logos : List String
  text_content : TextContent
  contact : Contact
  images : List ImageRec
  metadata : ExtractMetadata
deriving Repr, DecidableEq

/-- The regex-level inputs of `extract_business_content`: the findall/search
results of every pattern the five sub-extractors apply to the HTML.  On empty HTML
every list is empty, every optional capture is `none`, and the cleaned text is
`""`. -/
structure ExtractInput where
  hexMatches : List String
  cssMatches : List String
  inlineMatches : List String
  rgbMatches : List (Nat × Nat × Nat)
  logoMatches : List (List String)
  cleanedText : String
  aboutCap : Option String
  servicesCap : Option String
  phones1 : List String
  phones2 : List String
  phones3 : List String
  emailMatches : List String
  imgMatches : List (String × String)

/-- The inputs produced by empty HTML: every pattern finds nothing. -/
def emptyExtractInput : ExtractInput :=
  { hexMatches := [], cssMatches := [], inlineMatches := [], rgbMatches := []
    logoMatches := [[], [], [], [], []], cleanedText := ""
    aboutCap := none, servicesCap := none
    phones1 := [], phones2 := [], phones3 := [], emailMatches := [], imgMatches := [] }

/-- `extract_business_content`: run the five sub-extractions and assemble the
result with its metadata flags.  `has_contact_info` is
`any([phone, email, address])` under Python truthiness.  The embedded function is
total: no input raises. -/
def extractBusinessContent (inp : ExtractInput) (baseUrl : String)
    (uj : String → String → String) (businessPhone : Option String) : ExtractionResult :=
  { colors := extractColorsModel inp.hexMatches inp.cssMatches inp.inlineMatches inp.rgbMatches
    logos := extractLogoUrls inp.logoMatches baseUrl uj
    text_content := extractTextContent inp.cleanedText inp.aboutCap inp.servicesCap
    contact := extractContactInfo inp.phones1 inp.phones2 inp.phones3 inp.emailMatches
      businessPhone
    images := extractImages inp.imgMatches baseUrl uj 15
    metadata :=
      { total_colors_found :=
          (extractColorsModel inp.hexMatches inp.cssMatches inp.inlineMatches
            inp.rgbMatches).length
        total_images_found := (extractImages inp.imgMatches baseUrl uj 15).length
        has_logo := !(extractLogoUrls inp.logoMatches baseUrl uj).isEmpty
        has_about_section :=
          decide (50 < (processSection inp.aboutCap).length)
        has_services_section :=
          decide (50 < (processSection inp.servicesCap).length)
        has_contact_info :=
          pyTruthy (extractContactInfo inp.phones1 inp.phones2 inp.phones3
            inp.emailMatches businessPhone).phone ||
          pyTruthy (extractContactInfo inp.phones1 inp.phones2 inp.phones3
            inp.emailMatches businessPhone).email ||
          pyTruthy (extractContactInfo inp.phones1 inp.phones2 inp.phones3
            inp.emailMatches businessPhone).address } }

/-! ## Gap analyzer (`gap_analyzer.py`)

The regex and substring probes each check applies to the HTML are external `re`
library calls; `GapInput` carries their outcomes, one field per probe, and the
checks' arithmetic, issue lists, severities and the aggregation are transcribed
from the source.  On empty HTML every Boolean probe is `false` and every count 0 —
except `is_minified`, which is `'<!--' not in html[:1000] and '\n\n' not in
html[:1000]` and hence `true`. -/

/-- Outcomes of the HTML probes of the five checks. -/
structure GapInput where
  /-- `<meta[^>]+name=["']viewport["'][^>]*>` matched. -/
  has_viewport : Bool
  /-- `@media[^{]+\([^)]*\)` matched. -/
  has_media_queries : Bool
  /-- any of `bootstrap`/`tailwind`/`foundation`/`mobile`/`responsive` occurs in the
  lower-cased HTML. -/
  has_mobile_framework : Bool
  /-- `display:\s*flex` matched. -/
  m_flexbox : Bool
  /-- `display:\s*grid` matched. -/
  m_grid : Bool
  /-- `var\(--[^)]+\)` matched. -/
  m_css_variables : Bool
  /-- the modern-font-family pattern matched. -/
  m_modern_fonts : Bool
  /-- `rgba?\s*\(` matched. -/
  m_modern_colors : Bool
  /-- `transition:` matched. -/
  m_transitions : Bool
  /-- `@keyframes|animation:` matched. -/
  m_animations : Bool
  /-- the table-layout pattern matched. -/
  o_tables_layout : Bool
  /-- `<frame|<frameset` matched. -/
  o_frames : Bool
  /-- `\.swf|flash` matched. -/
  o_flash : Bool
  /-- `<marquee` matched. -/
  o_marquee : Bool
  /-- `<font[^>]*>` matched. -/
  o_font_tags : Bool
  /-- number of `style=["']` matches (the heavy-inline-style probe tests `> 50`). -/
  inline_style_count : Nat
  /-- the literal text `comic\s+sans` occurs in the lower-cased HTML (the source
  tests the raw pattern string with `in`, not with `re`). -/
  o_comic_sans : Bool
  /-- group 1 of `<title[^>]*>([^<]+)</title>`, if it matched. -/
  title : Option String
  /-- the meta-description pattern matched. -/
  has_meta_description : Bool
  /-- number of `<h1[^>]*>` matches. -/
  h1_count : Nat
  /-- `<h2[^>]*>` matched. -/
  has_h2 : Bool
  /-- number of `<img(?![^>]*alt=)[^>]*>` matches. -/
  images_without_alt : Nat
  /-- `schema\.org|itemtype=|@type` matched. -/
  has_schema : Bool
  /-- `len(html_content)` (`page_size_kb` is this divided by 1024, exactly
  representable as a float for any realistic page). -/
  html_len : Nat
  /-- number of `<script[^>]+src=` matches. -/
  script_count : Nat
  /-- number of `<link[^>]+rel=["']stylesheet["']` matches. -/
  stylesheet_count : Nat
  /-- `loading=["']lazy["']|lazy-load` matched. -/
  has_lazy_loading : Bool
  /-- `'<!--' not in html[:1000] and '\n\n' not in html[:1000]`. -/
  is_minified : Bool
  /-- the contact-form pattern matched. -/
  s_contact_form : Bool
  /-- `testimonial|review|customer\s+says|feedback` matched. -/
  s_testimonials : Bool
  /-- the about-section pattern matched. -/
  s_about : Bool
  /-- the call-to-action pattern matched. -/
  s_call_to_action : Bool
  /-- `menu|food|dishes|cuisine` matched. -/
  s_menu : Bool
  /-- `reserv|book\s+table|book\s+now` matched. -/
  s_reservation : Bool
  /-- `google.*map|map.*embed|location` matched. -/
  s_location_map : Bool
  /-- `service\s+area|we\s+serve|coverage` matched. -/
  s_service_area : Bool
  /-- `emergency|24/?7|urgent` matched. -/
  s_emergency_contact : Bool
  /-- `licensed|insured|certified|accredited` matched. -/
  s_certifications : Bool
  /-- the credentials pattern matched. -/
  s_credentials : Bool
  /-- the case-studies pattern matched. -/
  s_case_studies : Bool
  /-- the consultation pattern matched. -/
  s_consultation : Bool

/-- The probe outcomes on empty HTML. -/
def emptyGapInput : GapInput :=
  { has_viewport := false, has_media_queries := false, has_mobile_framework := false
    m_flexbox := false, m_grid := false, m_css_variables := false, m_modern_fonts := false
    m_modern_colors := false, m_transitions := false, m_animations := false
    o_tables_layout := false, o_frames := false, o_flash := false, o_marquee := false
    o_font_tags := false, inline_style_count := 0, o_comic_sans := false
    title := none, has_meta_description := false, h1_count := 0, has_h2 := false
    images_without_alt := 0, has_schema := false
    html_len := 0, script_count := 0, stylesheet_count := 0, has_lazy_loading := false
    is_minified := true
    s_contact_form := false, s_testimonials := false, s_about := false
    s_call_to_action := false, s_menu := false, s_reservation := false
    s_location_map := false, s_service_area := false, s_emergency_contact := false
    s_certifications := false, s_credentials := false, s_case_studies := false
    s_consultation := false }

structure MobileReport where
  score : Int
  has_viewport : Bool
  has_media_queries : Bool
  has_mobile_framework : Bool
  issues : List String
  severity : String
deriving Repr, DecidableEq

structure DesignReport where
  score : Int
  modern_indicators : Nat
  outdated_indicators : Nat
  issues : List String
  severity : String
deriving Repr, DecidableEq

structure SeoReport where
  score : Int
  has_title : Bool
  has_meta_description : Bool
  h1_count : Nat
  has_schema : Bool
  images_without_alt : Nat
  issues : List String
  severity : String
deriving Repr, DecidableEq

structure PerfReport where
  score : Int
  page_size_kb : ℚ
  script_count : Nat
  stylesheet_count : Nat
  has_lazy_loading : Bool
  is_minified : Bool
  issues : List String
  severity : String
deriving Repr, DecidableEq

structure MissingReport where
  score : Int
  missing_sections : Nat
  issues : List String
  severity : String
deriving Repr, DecidableEq

structure GapReport where
  overall_score : Int
  priority_gaps : List String
  mobile : MobileReport
  design : DesignReport
  seo : SeoReport
  performance : PerfReport
  missing_sections : MissingReport
  recommendations : List String
  gap_count : Nat
  total_issues : Nat
deriving Repr, DecidableEq

/-- The `score` variable of `check_mobile_responsiveness` after its three
sequential `score -= …` penalties (−40 no viewport, −30 no media queries,
−20 no mobile framework). -/
def mobileRawScore (inp : GapInput) : Int :=
  100 - (if inp.has_viewport then 0 else 40) - (if inp.has_media_queries then 0 else 30)
    - (if inp.has_mobile_framework then 0 else 20)

def mobileIssues (inp : GapInput) : List String :=
  (if inp.has_viewport then [] else ["Missing viewport meta tag for mobile devices"])
  ++ (if inp.has_media_queries then []
      else ["No CSS media queries detected (likely not responsive)"])
  ++ (if inp.has_mobile_framework then [] else ["No mobile-friendly CSS framework detected"])

/-- `check_mobile_responsiveness`: the returned score is `max(0, score)`, severity
is derived from the raw `score` variable. -/
def checkMobileResponsiveness (inp : GapInput) : MobileReport :=
  { score := max 0 (mobileRawScore inp)
    has_viewport := inp.has_viewport
    has_media_queries := inp.has_media_queries
    has_mobile_framework := inp.has_mobile_framework
    issues := mobileIssues inp
    severity :=
      if mobileRawScore inp < 40 then "critical"
      else if mobileRawScore inp < 70 then "high"
      else "medium" }

/-- `modern_indicators`: how many of the seven modern-feature probes matched. -/
def modernCount (inp : GapInput) : Nat :=
  [inp.m_flexbox, inp.m_grid, inp.m_css_variables, inp.m_modern_fonts,
    inp.m_modern_colors, inp.m_transitions, inp.m_animations].count true

/-- The `outdated_features` entries in dict order, with the display name
(`feature.replace('_', ' ')`) and the probe outcome; `inline_styles_heavy` is the
pre-computed Boolean `len(findall(r'style=["\x27]', html)) > 50` and `comic_sans`
the pre-computed substring test. -/
def outdatedFlags (inp : GapInput) : List (String × Bool) :=
  [("tables layout", inp.o_tables_layout), ("frames", inp.o_frames),
    ("flash", inp.o_flash), ("marquee", inp.o_marquee), ("font tags", inp.o_font_tags),
    ("inline styles heavy", decide (50 < inp.inline_style_count)),
    ("comic sans", inp.o_comic_sans)]

def outdatedCount (inp : GapInput) : Nat :=
  ((outdatedFlags inp).filter (fun p => p.2)).length

/-- `score = (modern_indicators * 10) - (outdated_indicators * 15)` before clamping. -/
def designRawScore (inp : GapInput) : Int :=
  10 * (modernCount inp : Int) - 15 * (outdatedCount inp : Int)

/-- `score = max(0, min(100, score))`. -/
def designScore (inp : GapInput) : Int := max 0 (min 100 (designRawScore inp))

def designIssues (inp : GapInput) : List String :=
  ((outdatedFlags inp).filter (fun p => p.2)).map (fun p => "Outdated: " ++ p.1)
  ++ (if modernCount inp < 2 then ["Very few modern CSS features detected"] else [])
  ++ (if outdatedCount inp = 0 ∧ modernCount inp < 3 then
      ["Design appears basic/minimal (not necessarily bad, but could be enhanced)"] else [])

/-- `check_design_modernity`: severity is derived from the clamped score (the
source reassigns `score` before building the dict). -/
def checkDesignModernity (inp : GapInput) : DesignReport :=
  { score := designScore inp
    modern_indicators := modernCount inp
    outdated_indicators := outdatedCount inp
    issues := designIssues inp
    severity :=
      if designScore inp < 30 then "critical"
      else if designScore inp < 60 then "high"
      else if designScore inp < 80 then "medium"
      else "low" }

/-- The title penalty of `check_seo_basics`: −20 when the title is missing or its
stripped text is shorter than 10 characters, else −5 when longer than 60. -/
def seoTitlePenalty (inp : GapInput) : Int :=
  if ¬inp.title.isSome ∨ (pyStrip (inp.title.getD "")).length < 10 then 20
  else if 60 < (inp.title.getD "").length then 5
  else 0

def seoRawScore (inp : GapInput) : Int :=
  100 - seoTitlePenalty inp
    - (if inp.has_meta_description then 0 else 20)
    - (if inp.h1_count = 0 then 15 else if 1 < inp.h1_count then 5 else 0)
    - (if inp.has_h2 then 0 else 10)
    - (if 3 < inp.images_without_alt then 15 else 0)
    - (if inp.has_schema then 0 else 15)

def seoIssues (inp : GapInput) : List String :=
  (if ¬inp.title.isSome ∨ (pyStrip (inp.title.getD "")).length < 10 then
    ["Missing or too-short title tag"]
  else if 60 < (inp.title.getD "").length then ["Title tag too long (>60 chars)"]
  else [])
  ++ (if inp.has_meta_description then [] else ["Missing meta description"])
  ++ (if inp.h1_count = 0 then ["No H1 heading found"]
      else if 1 < inp.h1_count then ["Multiple H1 headings (should be only one)"] else [])
  ++ (if inp.has_h2 then [] else ["No H2 headings found (poor content structure)"])
  ++ (if 3 < inp.images_without_alt then
      [toString inp.images_without_alt ++ " images missing alt attributes"] else [])
  ++ (if inp.has_schema then [] else ["No schema.org structured data found"])

/-- `check_seo_basics` (the `business_name` parameter is declared by the source but
never used). -/
def checkSeoBasics (inp : GapInput) (businessName : String) : SeoReport :=
  { score := max 0 (seoRawScore inp)
    has_title := inp.title.isSome
    has_meta_description := inp.has_meta_description
    h1_count := inp.h1_count
    has_schema := inp.has_schema
    images_without_alt := inp.images_without_alt
    issues := seoIssues inp
    severity :=
      if seoRawScore inp < 50 then "high"
      else if seoRawScore inp < 75 then "medium"
      else "low" }

/-- `f"{page_size_kb:.0f}"` on the exact float `len/1024`: round half to even. -/
def pyRound0KB (len : Nat) : Nat :=
  if 512 < len % 1024 then len / 1024 + 1
  else if len % 1024 < 512 then len / 1024
  else if len / 1024 % 2 = 0 then len / 1024
  else len / 1024 + 1

/-- `round(page_size_kb, 1)` on the exact float `len/1024`: round the number of
tenths half to even, then divide by 10. -/
def pyRound1KB (len : Nat) : ℚ :=
  ((if 512 < 10 * len % 1024 then 10 * len / 1024 + 1
    else if 10 * len % 1024 < 512 then 10 * len / 1024
    else if 10 * len / 1024 % 2 = 0 then 10 * len / 1024
    else 10 * len / 1024 + 1 : Nat) : ℚ) / 10

def perfRawScore (inp : GapInput) : Int :=
  100 - (if 512000 < inp.html_len then 20 else if 204800 < inp.html_len then 10 else 0)
    - (if 10 < inp.script_count then 15 else 0)
    - (if 5 < inp.stylesheet_count then 10 else 0)
    - (if inp.has_lazy_loading then 0 else 10)
    - (if inp.is_minified then 0 else 10)

def perfIssues (inp : GapInput) : List String :=
  (if 512000 < inp.html_len then
    ["Large HTML size (" ++ toString (pyRound0KB inp.html_len) ++ "KB)"]
  else if 204800 < inp.html_len then
    ["Moderate HTML size (" ++ toString (pyRound0KB inp.html_len) ++ "KB)"]
  else [])
  ++ (if 10 < inp.script_count then
      ["Many external scripts (" ++ toString inp.script_count ++ ")"] else [])
  ++ (if 5 < inp.stylesheet_count then
      ["Many external stylesheets (" ++ toString inp.stylesheet_count ++ ")"] else [])
  ++ (if inp.has_lazy_loading then [] else ["No lazy loading detected for images"])
  ++ (if inp.is_minified then []
      else ["HTML not minified (contains comments/excess whitespace)"])

/-- `check_performance_indicators`: `page_size_kb > 500` on the exact float
`len/1024` is `len > 512000`, and `> 200` is `len > 204800`. -/
def checkPerformanceIndicators (inp : GapInput) : PerfReport :=
  { score := max 0 (perfRawScore inp)
    page_size_kb := pyRound1KB inp.html_len
    script_count := inp.script_count
    stylesheet_count := inp.stylesheet_count
    has_lazy_loading := inp.has_lazy_loading
    is_minified := inp.is_minified
    issues := perfIssues inp
    severity :=
      if perfRawScore inp < 50 then "high"
      else if perfRawScore inp < 75 then "medium"
      else "low" }

/-- The `universal_sections` probes, in dict order, with display names. -/
def universalFlags (inp : GapInput) : List (String × Bool) :=
  [("contact form", inp.s_contact_form), ("testimonials", inp.s_testimonials),
    ("about", inp.s_about), ("call to action", inp.s_call_to_action)]

def missingUniversal (inp : GapInput) : List (String × Bool) :=
  (universalFlags inp).filter (fun p => !p.2)

/-- The `business_specific` table, in dict order, with display names. -/
def businessSpecificFlags (inp : GapInput) : List (String × List (String × Bool)) :=
  [("restaurant",
    [("menu", inp.s_menu), ("reservation", inp.s_reservation),
      ("location map", inp.s_location_map)]),
  ("home_services",
    [("service area", inp.s_service_area), ("emergency contact", inp.s_emergency_contact),
      ("certifications", inp.s_certifications)]),
  ("professional",
    [("credentials", inp.s_credentials), ("case studies", inp.s_case_studies),
      ("consultation", inp.s_consultation)])]

def missingSpecific (inp : GapInput) (businessType : String) : List (String × Bool) :=
  (lookupD (businessSpecificFlags inp) businessType []).filter (fun p => !p.2)

/-- −15 per missing universal section, −10 per missing business-specific section. -/
def missingRawScore (inp : GapInput) (businessType : String) : Int :=
  100 - 15 * ((missingUniversal inp).length : Int)
    - 10 * ((missingSpecific inp businessType).length : Int)

def missingIssues (inp : GapInput) (businessType : String) : List String :=
  (missingUniversal inp).map (fun p => "Missing " ++ p.1)
  ++ (missingSpecific inp businessType).map (fun p => "Missing business-specific: " ++ p.1)

/-- `check_missing_sections`; `missing_sections` is `len(issues)`. -/
def checkMissingSections (inp : GapInput) (businessType : String) : MissingReport :=
  { score := max 0 (missingRawScore inp businessType)
    missing_sections := (missingIssues inp businessType).length
    issues := missingIssues inp businessType
    severity :=
      if missingRawScore inp businessType < 50 then "high"
      else if missingRawScore inp businessType < 75 then "medium"
      else "low" }

/-- Python `int(·)` on a float: truncation toward zero. -/
def pyInt (q : ℚ) : Int := if q < 0 then ⌈q⌉ else ⌊q⌋

/-- The fixed weighted sum
`mobile*0.30 + design*0.20 + seo*0.25 + performance*0.15 + missing*0.10`. -/
def weightedSumScores (m d s p mi : Int) : ℚ :=
  (m : ℚ) * (30/100) + (d : ℚ) * (20/100) + (s : ℚ) * (25/100) + (p : ℚ) * (15/100)
    + (mi : ℚ) * (10/100)

/-- The weighted sum of a report's five sub-report scores. -/
def weightedSum (r : GapReport) : ℚ :=
  weightedSumScores r.mobile.score r.design.score r.seo.score r.performance.score
    r.missing_sections.score

/-- The `priority_gaps` list: mobile and design qualify on severity critical or
high, the other three only on severity exactly high. -/
def priorityGaps (inp : GapInput) (businessName businessType : String) : List String :=
  (if (checkMobileResponsiveness inp).severity = "critical" ∨
      (checkMobileResponsiveness inp).severity = "high" then ["mobile_responsiveness"] else [])
  ++ (if (checkDesignModernity inp).severity = "critical" ∨
      (checkDesignModernity inp).severity = "high" then ["modern_design"] else [])
  ++ (if (checkSeoBasics inp businessName).severity = "high" then ["seo_optimization"] else [])
  ++ (if (checkPerformanceIndicators inp).severity = "high" then ["performance"] else [])
  ++ (if (checkMissingSections inp businessType).severity = "high" then ["key_sections"] else [])

def recommendationsOf (inp : GapInput) (businessName businessType : String) : List String :=
  (if "mobile_responsiveness" ∈ priorityGaps inp businessName businessType then
    ["Implement mobile-first responsive design with proper viewport and media queries"]
  else [])
  ++ (if "modern_design" ∈ priorityGaps inp businessName businessType then
      ["Modernize design with flexbox/grid layouts, contemporary colors, and smooth animations"]
    else [])
  ++ (if "seo_optimization" ∈ priorityGaps inp businessName businessType then
      ["Add proper meta tags, structured headings, schema.org markup, and image alt text"]
    else [])
  ++ (if "performance" ∈ priorityGaps inp businessName businessType then
      ["Optimize loading speed with lazy loading, minification, and reduced external resources"]
    else [])
  ++ (if "key_sections" ∈ priorityGaps inp businessName businessType then
      ["Add missing sections important for " ++ businessType ++ " businesses"]
    else [])
  ++ (if (checkMobileResponsiveness inp).score < 100 ∧
      "mobile_responsiveness" ∉ priorityGaps inp businessName businessType then
      ["Minor mobile responsiveness improvements needed"]
    else [])
  ++ (if (checkSeoBasics inp businessName).score < 100 ∧
      "seo_optimization" ∉ priorityGaps inp businessName businessType then
      ["Minor SEO enhancements recommended"]
    else [])

/-- `analyze_website_gaps`: run the five checks, truncate the weighted sum to an
int, derive priority gaps and recommendations.  The embedded function is total: no
input raises. -/
def analyzeWebsiteGaps (inp : GapInput) (businessName businessType : String) : GapReport :=
  { overall_score := pyInt (weightedSumScores
      (checkMobileResponsiveness inp).score
      (checkDesignModernity inp).score
      (checkSeoBasics inp businessName).score
      (checkPerformanceIndicators inp).score
      (checkMissingSections inp businessType).score)
    priority_gaps := priorityGaps inp businessName businessType
    mobile := checkMobileResponsiveness inp
    design := checkDesignModernity inp
    seo := checkSeoBasics inp businessName
    performance := checkPerformanceIndicators inp
    missing_sections := checkMissingSections inp businessType
    recommendations := recommendationsOf inp businessName businessType
    gap_count := (priorityGaps inp businessName businessType).length
    total_issues :=
      (checkMobileResponsiveness inp).issues.length
      + (checkDesignModernity inp).issues.length
      + (checkSeoBasics inp businessName).issues.length
      + (checkPerformanceIndicators inp).issues.length
      + (checkMissingSections inp businessType).issues.length }

/-! ### Gap analyzer lemmas -/

lemma mobile_score_mem (inp : GapInput) :
    0 ≤ (checkMobileResponsiveness inp).score ∧ (checkMobileResponsiveness inp).score ≤ 100 := by
  constructor
  · exact le_max_left _ _
  · refine max_le (by norm_num) ?_
    unfold mobileRawScore
    split_ifs <;> omega

lemma design_score_mem (inp : GapInput) :
    0 ≤ (checkDesignModernity inp).score ∧ (checkDesignModernity inp).score ≤ 100 := by
  constructor
  · exact le_max_left _ _
  · exact max_le (by norm_num) (le_trans (min_le_left _ _) (by norm_num))

lemma seo_score_mem (inp : GapInput) (businessName : String) :
    0 ≤ (checkSeoBasics inp businessName).score ∧
      (checkSeoBasics inp businessName).score ≤ 100 := by
  constructor
  · exact le_max_left _ _
  · refine max_le (by norm_num) ?_
    unfold seoRawScore seoTitlePenalty
    split_ifs <;> omega

lemma perf_score_mem (inp : GapInput) :
    0 ≤ (checkPerformanceIndicators inp).score ∧
      (checkPerformanceIndicators inp).score ≤ 100 := by
  constructor
  · exact le_max_left _ _
  · refine max_le (by norm_num) ?_
    unfold perfRawScore
    split_ifs <;> omega

lemma missing_score_mem (inp : GapInput) (businessType : String) :
    0 ≤ (checkMissingSections inp businessType).score ∧
      (checkMissingSections inp businessType).score ≤ 100 := by
  constructor
  · exact le_max_left _ _
  · refine max_le (by norm_num) ?_
    unfold missingRawScore
    omega

lemma pyInt_eq_floor {q : ℚ} (h : 0 ≤ q) : pyInt q = ⌊q⌋ := by
  unfold pyInt
  rw [if_neg (not_lt.mpr h)]

lemma weightedSumScores_nonneg {m d s p mi : Int} (hm : 0 ≤ m) (hd : 0 ≤ d) (hs : 0 ≤ s)
    (hp : 0 ≤ p) (hmi : 0 ≤ mi) : 0 ≤ weightedSumScores m d s p mi := by
  unfold weightedSumScores
  have hm2 : (0 : ℚ) ≤ (m : ℚ) := by exact_mod_cast hm
  have hd2 : (0 : ℚ) ≤ (d : ℚ) := by exact_mod_cast hd
  have hs2 : (0 : ℚ) ≤ (s : ℚ) := by exact_mod_cast hs
  have hp2 : (0 : ℚ) ≤ (p : ℚ) := by exact_mod_cast hp
  have hmi2 : (0 : ℚ) ≤ (mi : ℚ) := by exact_mod_cast hmi
  positivity

lemma weightedSumScores_le_100 {m d s p mi : Int} (hm : m ≤ 100) (hd : d ≤ 100) (hs : s ≤ 100)
    (hp : p ≤ 100) (hmi : mi ≤ 100) : weightedSumScores m d s p mi ≤ 100 := by
  unfold weightedSumScores
  have hm2 : (m : ℚ) ≤ 100 := by exact_mod_cast hm
  have hd2 : (d : ℚ) ≤ 100 := by exact_mod_cast hd
  have hs2 : (s : ℚ) ≤ 100 := by exact_mod_cast hs
  have hp2 : (p : ℚ) ≤ 100 := by exact_mod_cast hp
  have hmi2 : (mi : ℚ) ≤ 100 := by exact_mod_cast hmi
  nlinarith

lemma mem_ite_singleton {c : Prop} [Decidable c] {x y : String} :
    (x ∈ (if c then [y] else [])) ↔ (c ∧ x = y) := by
  by_cases h : c
  · rw [if_pos h]; simp [h]
  · rw [if_neg h]; simp [h]

lemma mobileSeverity_cases (inp : GapInput) :
    (checkMobileResponsiveness inp).severity = "critical" ∨
      (checkMobileResponsiveness inp).severity = "high" ∨
      (checkMobileResponsiveness inp).severity = "medium" := by
  have h : (checkMobileResponsiveness inp).severity =
      (if mobileRawScore inp < 40 then "critical"
        else if mobileRawScore inp < 70 then "high" else "medium") := rfl
  rw [h]
  split_ifs <;> simp

lemma designSeverity_cases (inp : GapInput) :
    (checkDesignModernity inp).severity = "critical" ∨
      (checkDesignModernity inp).severity = "high" ∨
      (checkDesignModernity inp).severity = "medium" ∨
      (checkDesignModernity inp).severity = "low" := by
  have h : (checkDesignModernity inp).severity =
      (if designScore inp < 30 then "critical"
        else if designScore inp < 60 then "high"
        else if designScore inp < 80 then "medium" else "low") := rfl
  rw [h]
  split_ifs <;> simp

lemma seoSeverity_cases (inp : GapInput) (businessName : String) :
    (checkSeoBasics inp businessName).severity = "high" ∨
      (checkSeoBasics inp businessName).severity = "medium" ∨
      (checkSeoBasics inp businessName).severity = "low" := by
  have h : (checkSeoBasics inp businessName).severity =
      (if seoRawScore inp < 50 then "high"
        else if seoRawScore inp < 75 then "medium" else "low") := rfl
  rw [h]
  split_ifs <;> simp

lemma perfSeverity_cases (inp : GapInput) :
    (checkPerformanceIndicators inp).severity = "high" ∨
      (checkPerformanceIndicators inp).severity = "medium" ∨
      (checkPerformanceIndicators inp).severity = "low" := by
  have h : (checkPerformanceIndicators inp).severity =
      (if perfRawScore inp < 50 then "high"
        else if perfRawScore inp < 75 then "medium" else "low") := rfl
  rw [h]
  split_ifs <;> simp

lemma missingSeverity_cases (inp : GapInput) (businessType : String) :
    (checkMissingSections inp businessType).severity = "high" ∨
      (checkMissingSections inp businessType).severity = "medium" ∨
      (checkMissingSections inp businessType).severity = "low" := by
  have h : (checkMissingSections inp businessType).severity =
      (if missingRawScore inp businessType < 50 then "high"
        else if missingRawScore inp businessType < 75 then "medium" else "low") := rfl
  rw [h]
  split_ifs <;> simp

lemma seoSeverity_ne_critical (inp : GapInput) (businessName : String) :
    (checkSeoBasics inp businessName).severity ≠ "critical" := by
  rcases seoSeverity_cases inp businessName with h | h | h <;> rw [h] <;> decide

lemma perfSeverity_ne_critical (inp : GapInput) :
    (checkPerformanceIndicators inp).severity ≠ "critical" := by
  rcases perfSeverity_cases inp with h | h | h <;> rw [h] <;> decide

lemma missingSeverity_ne_critical (inp : GapInput) (businessType : String) :
    (checkMissingSections inp businessType).severity ≠ "critical" := by
  rcases missingSeverity_cases inp businessType with h | h | h <;> rw [h] <;> decide

lemma mem_priorityGaps (x : String) (inp : GapInput) (businessName businessType : String) :
    (x ∈ priorityGaps inp businessName businessType) ↔
      (((checkMobileResponsiveness inp).severity = "critical" ∨
          (checkMobileResponsiveness inp).severity = "high") ∧ x = "mobile_responsiveness") ∨
      (((checkDesignModernity inp).severity = "critical" ∨
          (checkDesignModernity inp).severity = "high") ∧ x = "modern_design") ∨
      ((checkSeoBasics inp businessName).severity = "high" ∧ x = "seo_optimization") ∨
      ((checkPerformanceIndicators inp).severity = "high" ∧ x = "performance") ∨
      ((checkMissingSections inp businessType).severity = "high" ∧ x = "key_sections") := by
  unfold priorityGaps
  simp only [List.mem_append, mem_ite_singleton, or_assoc]

lemma empty_scores :
    (checkMobileResponsiveness emptyGapInput).score = 10 ∧
    (checkDesignModernity emptyGapInput).score = 0 ∧
    (checkSeoBasics emptyGapInput "").score = 20 ∧
    (checkPerformanceIndicators emptyGapInput).score = 90 ∧
    (checkMissingSections emptyGapInput "general").score = 40 :=
  ⟨by decide, by decide, by decide, by decide, by decide⟩

lemma weightedSum_empty_scores : weightedSumScores 10 0 20 90 40 = 51/2 := by
  unfold weightedSumScores
  norm_num

lemma overall_empty_eq :
    (analyzeWebsiteGaps emptyGapInput "" "general").overall_score = 25 := by
  have h : (analyzeWebsiteGaps emptyGapInput "" "general").overall_score =
      pyInt (weightedSumScores (checkMobileResponsiveness emptyGapInput).score
        (checkDesignModernity emptyGapInput).score (checkSeoBasics emptyGapInput "").score
        (checkPerformanceIndicators emptyGapInput).score
        (checkMissingSections emptyGapInput "general").score) := rfl
  rw [h, empty_scores.1, empty_scores.2.1, empty_scores.2.2.1, empty_scores.2.2.2.1,
    empty_scores.2.2.2.2, weightedSum_empty_scores]
  unfold pyInt
  rw [if_neg (by norm_num)]
  rw [Int.floor_eq_iff]
  norm_num

lemma weightedSum_empty_eq :
    weightedSum (analyzeWebsiteGaps emptyGapInput "" "general") = 51/2 := by
  have h : weightedSum (analyzeWebsiteGaps emptyGapInput "" "general") =
      weightedSumScores (checkMobileResponsiveness emptyGapInput).score
        (checkDesignModernity emptyGapInput).score (checkSeoBasics emptyGapInput "").score
        (checkPerformanceIndicators emptyGapInput).score
        (checkMissingSections emptyGapInput "general").score := rfl
  rw [h, empty_scores.1, empty_scores.2.1, empty_scores.2.2.1, empty_scores.2.2.2.1,
    empty_scores.2.2.2.2, weightedSum_empty_scores]

/-! ### C1 -/

/-- C1 counterexample: on empty HTML (name `""`, type `"general"`) the sub-scores
are mobile 10, design 0, seo 20, performance 90, missing-sections 40, whose
weighted sum is 25.5; `int(...)` truncates it to 25, so the returned overall score
does not equal the weighted sum clamped to [0,100] (which is 25.5 itself). -/
theorem C1_counterexample :
    ((analyzeWebsiteGaps emptyGapInput "" "general").overall_score : ℚ) ≠
      max 0 (min 100 (weightedSum (analyzeWebsiteGaps emptyGapInput "" "general"))) := by
  rw [overall_empty_eq, weightedSum_empty_eq]
  rw [min_eq_right (by norm_num : (51/2 : ℚ) ≤ 100),
    max_eq_right (by norm_num : (0 : ℚ) ≤ 51/2)]
  norm_num

/-- C1 (amended): the overall score is the *floor* (Python `int()` truncation) of
the fixed weighted sum of the five sub-report scores — the unique integer `n` with
`n ≤ sum < n + 1` — and it always lies in [0,100]; since each sub-score lies in
[0,100], the weighted sum already lies in [0,100] and clamping would never change
it. -/
theorem C1_overall_score_floor (inp : GapInput) (businessName businessType : String) :
    ((analyzeWebsiteGaps inp businessName businessType).overall_score : ℚ) ≤
        weightedSum (analyzeWebsiteGaps inp businessName businessType) ∧
      weightedSum (analyzeWebsiteGaps inp businessName businessType) <
        (analyzeWebsiteGaps inp businessName businessType).overall_score + 1 ∧
      0 ≤ (analyzeWebsiteGaps inp businessName businessType).overall_score ∧
      (analyzeWebsiteGaps inp businessName businessType).overall_score ≤ 100 := by
  have hW0 : 0 ≤ weightedSumScores (checkMobileResponsiveness inp).score
      (checkDesignModernity inp).score (checkSeoBasics inp businessName).score
      (checkPerformanceIndicators inp).score (checkMissingSections inp businessType).score :=
    weightedSumScores_nonneg (mobile_score_mem inp).1 (design_score_mem inp).1
      (seo_score_mem inp businessName).1 (perf_score_mem inp).1
      (missing_score_mem inp businessType).1
  have hW100 : weightedSumScores (checkMobileResponsiveness inp).score
      (checkDesignModernity inp).score (checkSeoBasics inp businessName).score
      (checkPerformanceIndicators inp).score (checkMissingSections inp businessType).score
        ≤ 100 :=
    weightedSumScores_le_100 (mobile_score_mem inp).2 (design_score_mem inp).2
      (seo_score_mem inp businessName).2 (perf_score_mem inp).2
      (missing_score_mem inp businessType).2
  have hov : (analyzeWebsiteGaps inp businessName businessType).overall_score =
      ⌊weightedSumScores (checkMobileResponsiveness inp).score
        (checkDesignModernity inp).score (checkSeoBasics inp businessName).score
        (checkPerformanceIndicators inp).score (checkMissingSections inp businessType).score⌋ :=
    pyInt_eq_floor hW0
  have hws : weightedSum (analyzeWebsiteGaps inp businessName businessType) =
      weightedSumScores (checkMobileResponsiveness inp).score
        (checkDesignModernity inp).score (checkSeoBasics inp businessName).score
        (checkPerformanceIndicators inp).score (checkMissingSections inp businessType).score :=
    rfl
  rw [hov, hws]
  refine ⟨Int.floor_le _, Int.lt_floor_add_one _, ?_, ?_⟩
  · exact Int.le_floor.mpr (by exact_mod_cast hW0)
  · have h := Int.floor_le_floor hW100
    simpa using h

/-! ### C4 -/

/-- C4: each of the five names is in `priority_gaps` exactly when the corresponding
sub-report's severity tier is `"high"` or `"critical"` — membership is a pure
function of the severity tiers.  (For seo/performance/missing-sections the source
tests `== "high"` only; this coincides because those severities are never
`"critical"`.) -/
theorem C4_priority_gaps_iff_severity (inp : GapInput) (businessName businessType : String) :
    (("mobile_responsiveness" ∈ (analyzeWebsiteGaps inp businessName businessType).priority_gaps) ↔
      ((analyzeWebsiteGaps inp businessName businessType).mobile.severity = "critical" ∨
        (analyzeWebsiteGaps inp businessName businessType).mobile.severity = "high")) ∧
    (("modern_design" ∈ (analyzeWebsiteGaps inp businessName businessType).priority_gaps) ↔
      ((analyzeWebsiteGaps inp businessName businessType).design.severity = "critical" ∨
        (analyzeWebsiteGaps inp businessName businessType).design.severity = "high")) ∧
    (("seo_optimization" ∈ (analyzeWebsiteGaps inp businessName businessType).priority_gaps) ↔
      ((analyzeWebsiteGaps inp businessName businessType).seo.severity = "critical" ∨
        (analyzeWebsiteGaps inp businessName businessType).seo.severity = "high")) ∧
    (("performance" ∈ (analyzeWebsiteGaps inp businessName businessType).priority_gaps) ↔
      ((analyzeWebsiteGaps inp businessName businessType).performance.severity = "critical" ∨
        (analyzeWebsiteGaps inp businessName businessType).performance.severity = "high")) ∧
    (("key_sections" ∈ (analyzeWebsiteGaps inp businessName businessType).priority_gaps) ↔
      ((analyzeWebsiteGaps inp businessName businessType).missing_sections.severity = "critical" ∨
        (analyzeWebsiteGaps inp businessName businessType).missing_sections.severity = "high")) := by
  have hpg : (analyzeWebsiteGaps inp businessName businessType).priority_gaps =
      priorityGaps inp businessName businessType := rfl
  refine ⟨?_, ?_, ?_, ?_, ?_⟩
  · rw [hpg, mem_priorityGaps]
    constructor
    · rintro (⟨hc, -⟩ | ⟨-, he⟩ | ⟨-, he⟩ | ⟨-, he⟩ | ⟨-, he⟩)
      · exact hc
      all_goals exact absurd he (by decide)
    · intro hc
      exact Or.inl ⟨hc, rfl⟩
  · rw [hpg, mem_priorityGaps]
    constructor
    · rintro (⟨-, he⟩ | ⟨hc, -⟩ | ⟨-, he⟩ | ⟨-, he⟩ | ⟨-, he⟩)
      · exact absurd he (by decide)
      · exact hc
      all_goals exact absurd he (by decide)
    · intro hc
      exact Or.inr (Or.inl ⟨hc, rfl⟩)
  · rw [hpg, mem_priorityGaps]
    constructor
    · rintro (⟨-, he⟩ | ⟨-, he⟩ | ⟨hc, -⟩ | ⟨-, he⟩ | ⟨-, he⟩)
      · exact absurd he (by decide)
      · exact absurd he (by decide)
      · exact Or.inr hc
      all_goals exact absurd he (by decide)
    · rintro (hc | hc)
      · exact absurd hc (seoSeverity_ne_critical inp businessName)
      · exact Or.inr (Or.inr (Or.inl ⟨hc, rfl⟩))
  · rw [hpg, mem_priorityGaps]
    constructor
    · rintro (⟨-, he⟩ | ⟨-, he⟩ | ⟨-, he⟩ | ⟨hc, -⟩ | ⟨-, he⟩)
      · exact absurd he (by decide)
      · exact absurd he (by decide)
      · exact absurd he (by decide)
      · exact Or.inr hc
      · exact absurd he (by decide)
    · rintro (hc | hc)
      · exact absurd hc (perfSeverity_ne_critical inp)
      · exact Or.inr (Or.inr (Or.inr (Or.inl ⟨hc, rfl⟩)))
  · rw [hpg, mem_priorityGaps]
    constructor
    · rintro (⟨-, he⟩ | ⟨-, he⟩ | ⟨-, he⟩ | ⟨-, he⟩ | ⟨hc, -⟩)
      · exact absurd he (by decide)
      · exact absurd he (by decide)
      · exact absurd he (by decide)
      · exact absurd he (by decide)
      · exact Or.inr hc
    · rintro (hc | hc)
      · exact absurd hc (missingSeverity_ne_critical inp businessType)
      · exact Or.inr (Or.inr (Or.inr (Or.inr ⟨hc, rfl⟩)))

/-- C4 witness: on empty HTML, `"seo_optimization"` is a priority gap because the
seo severity is `"high"`. -/
theorem C4_priority_gaps_iff_severity_witness :
    "seo_optimization" ∈ (analyzeWebsiteGaps emptyGapInput "" "general").priority_gaps :=
  (C4_priority_gaps_iff_severity emptyGapInput "" "general").2.2.1.mpr (Or.inr (by decide))

/-! ### C5 -/

/-- C5 counterexample: on empty HTML the design check reports zero outdated
indicators (no penalty-carrying issues) yet a score of 0 — not the 100 that
"start at 100 and subtract per-issue penalties, floored at 0" (−15 per outdated
feature) would give. -/
theorem C5_counterexample :
    (checkDesignModernity emptyGapInput).outdated_indicators = 0 ∧
    (checkDesignModernity emptyGapInput).score = 0 ∧
    (checkDesignModernity emptyGapInput).score ≠
      max 0 (100 - 15 * ((checkDesignModernity emptyGapInput).outdated_indicators : Int)) := by
  decide

/-- C5 (amended): four of the five checks — mobile, seo, performance,
missing-sections — compute their score as 100 minus the sum of their fixed
per-issue penalties, floored at 0; the design check instead scores 10 per modern
indicator minus 15 per outdated indicator, clamped to [0,100]. -/
theorem C5_score_structure (inp : GapInput) (businessName businessType : String) :
    (checkMobileResponsiveness inp).score =
      max 0 (100 - ((if inp.has_viewport then 0 else 40) +
        (if inp.has_media_queries then 0 else 30) +
        (if inp.has_mobile_framework then 0 else 20))) ∧
    (checkSeoBasics inp businessName).score =
      max 0 (100 - (seoTitlePenalty inp +
        (if inp.has_meta_description then 0 else 20) +
        (if inp.h1_count = 0 then 15 else if 1 < inp.h1_count then 5 else 0) +
        (if inp.has_h2 then 0 else 10) +
        (if 3 < inp.images_without_alt then 15 else 0) +
        (if inp.has_schema then 0 else 15))) ∧
    (checkPerformanceIndicators inp).score =
      max 0 (100 - ((if 512000 < inp.html_len then 20
          else if 204800 < inp.html_len then 10 else 0) +
        (if 10 < inp.script_count then 15 else 0) +
        (if 5 < inp.stylesheet_count then 10 else 0) +
        (if inp.has_lazy_loading then 0 else 10) +
        (if inp.is_minified then 0 else 10))) ∧
    (checkMissingSections inp businessType).score =
      max 0 (100 - (15 * ((missingUniversal inp).length : Int) +
        10 * ((missingSpecific inp businessType).length : Int))) ∧
    (checkDesignModernity inp).score =
      max 0 (min 100 (10 * (modernCount inp : Int) - 15 * (outdatedCount inp : Int))) := by
  refine ⟨?_, ?_, ?_, ?_, rfl⟩
  · show max 0 (mobileRawScore inp) = _
    unfold mobileRawScore
    ring_nf
  · show max 0 (seoRawScore inp) = _
    unfold seoRawScore
    ring_nf
  · show max 0 (perfRawScore inp) = _
    unfold perfRawScore
    ring_nf
  · show max 0 (missingRawScore inp businessType) = _
    unfold missingRawScore
    ring_nf

/-! ### C9 -/

/-- C9: on the absent scrape (empty HTML, where every pattern finds nothing), both
`extract_business_content` and `analyze_website_gaps` are total — the embedding
has no failing field access or regex step — and return complete records: the
extractor's fields all take their empty/default values (the contact phone being the
supplied known phone), and the gap report contains every field, with the values
determined by all probes failing on empty input. -/
theorem C9_empty_scrape_reports (baseUrl : String) (uj : String → String → String)
    (businessPhone : Option String) :
    extractBusinessContent emptyExtractInput baseUrl uj businessPhone =
      { colors := [], logos := [],
        text_content := { full_text := "", about := "", services := "", contact := "" },
        contact := { phone := businessPhone, email := none, address := none },
        images := [],
        metadata :=
          { total_colors_found := 0, total_images_found := 0, has_logo := false,
            has_about_section := false, has_services_section := false,
            has_contact_info := pyTruthy businessPhone } } ∧
    analyzeWebsiteGaps emptyGapInput "" "general" =
      { overall_score := 25
        priority_gaps := ["mobile_responsiveness", "modern_design", "seo_optimization",
          "key_sections"]
        mobile :=
          { score := 10, has_viewport := false, has_media_queries := false,
            has_mobile_framework := false,
            issues := ["Missing viewport meta tag for mobile devices",
              "No CSS media queries detected (likely not responsive)",
              "No mobile-friendly CSS framework detected"],
            severity := "critical" }
        design :=
          { score := 0, modern_indicators := 0, outdated_indicators := 0,
            issues := ["Very few modern CSS features detected",
              "Design appears basic/minimal (not necessarily bad, but could be enhanced)"],
            severity := "critical" }
        seo :=
          { score := 20, has_title := false, has_meta_description := false,
            h1_count := 0, has_schema := false, images_without_alt := 0,
            issues := ["Missing or too-short title tag", "Missing meta description",
              "No H1 heading found", "No H2 headings found (poor content structure)",
              "No schema.org structured data found"],
            severity := "high" }
        performance :=
          { score := 90, page_size_kb := 0, script_count := 0,
            stylesheet_count := 0, has_lazy_loading := false, is_minified := true,
            issues := ["No lazy loading detected for images"], severity := "low" }
        missing_sections :=
          { score := 40, missing_sections := 4,
            issues := ["Missing contact form", "Missing testimonials", "Missing about",
              "Missing call to action"],
            severity := "high" }
        recommendations :=
          ["Implement mobile-first responsive design with proper viewport and media queries",
            "Modernize design with flexbox/grid layouts, contemporary colors, and smooth animations",
            "Add proper meta tags, structured headings, schema.org markup, and image alt text",
            "Add missing sections important for general businesses"]
        gap_count := 4
        total_issues := 15 } := by
  constructor
  · simp only [extractBusinessContent, extractTextContent, extractContactInfo, extractImages,
      extractLogoUrls, extractColorsModel, allColors, dedupFirst, processSection, phoneLoop,
      emptyExtractInput]
    simp [Bool.or_false, pyTake, pyTruthy]
  · unfold analyzeWebsiteGaps
    simp only [GapReport.mk.injEq]
    refine ⟨?_, by decide, by decide, by decide, by decide, ?_, by decide, by decide,
      by decide, by decide⟩
    · exact overall_empty_eq
    · unfold checkPerformanceIndicators
      simp only [PerfReport.mk.injEq]
      refine ⟨by decide, ?_, by decide, by decide, by decide, by decide, by decide, by decide⟩
      have h0 : emptyGapInput.html_len = 0 := rfl
      rw [h0]
      norm_num [pyRound1KB]

/-! ### C10 -/

/-- C10: the seo, performance and missing-sections severities always lie in
{"high", "medium", "low"} and are never "critical"; the critical tier is reachable
only for mobile and design — and is actually reached by both on empty HTML. -/
theorem C10_critical_only_mobile_design (inp : GapInput) (businessName businessType : String) :
    ((analyzeWebsiteGaps inp businessName businessType).seo.severity = "high" ∨
      (analyzeWebsiteGaps inp businessName businessType).seo.severity = "medium" ∨
      (analyzeWebsiteGaps inp businessName businessType).seo.severity = "low") ∧
    (analyzeWebsiteGaps inp businessName businessType).seo.severity ≠ "critical" ∧
    ((analyzeWebsiteGaps inp businessName businessType).performance.severity = "high" ∨
      (analyzeWebsiteGaps inp businessName businessType).performance.severity = "medium" ∨
      (analyzeWebsiteGaps inp businessName businessType).performance.severity = "low") ∧
    (analyzeWebsiteGaps inp businessName businessType).performance.severity ≠ "critical" ∧
    ((analyzeWebsiteGaps inp businessName businessType).missing_sections.severity = "high" ∨
      (analyzeWebsiteGaps inp businessName businessType).missing_sections.severity = "medium" ∨
      (analyzeWebsiteGaps inp businessName businessType).missing_sections.severity = "low") ∧
    (analyzeWebsiteGaps inp businessName businessType).missing_sections.severity ≠ "critical" ∧
    (analyzeWebsiteGaps emptyGapInput "" "general").mobile.severity = "critical" ∧
    (analyzeWebsiteGaps emptyGapInput "" "general").design.severity = "critical" := by
  exact ⟨seoSeverity_cases inp businessName, seoSeverity_ne_critical inp businessName,
    perfSeverity_cases inp, perfSeverity_ne_critical inp,
    missingSeverity_cases inp businessType, missingSeverity_ne_critical inp businessType,
    by decide, by decide⟩

end AutoWeb
